import Mathlib

/-!
Verification development for the era-inventory-api service.

The Go sources are shallowly embedded: pure helpers become Lean
functions, SQL statements become explicit operations on list-modelled
tables, and HTTP/driver failures become explicit error values.
Machine integers are modelled as `Int` (no arithmetic in the verified
paths comes near 64-bit overflow).
-/

namespace Era

/-- Model of Go `strings.TrimSpace`: drop leading and trailing
whitespace.  (Defined over the character list so that proofs can
evaluate it; Lean's own `String.trim` is opaque to the kernel.) -/
def goTrim (s : String) : String :=
  ⟨((s.data.dropWhile Char.isWhitespace).reverse.dropWhile
      Char.isWhitespace).reverse⟩

/-- Character-level worker for `splitComma`. -/
def splitCommaAux : List Char → List Char → List (List Char)
  | [], acc => [acc.reverse]
  | c :: t, acc =>
    if c = ',' then acc.reverse :: splitCommaAux t []
    else splitCommaAux t (c :: acc)

/-- Model of Go `strings.Split(s, ",")`. -/
def splitComma (s : String) : List String :=
  (splitCommaAux s.data []).map (fun l => ⟨l⟩)

/-- Lower-casing used to model SQL `ILIKE`. -/
def lowerStr (s : String) : String :=
  ⟨s.data.map Char.toLower⟩

/-- Model of Go `strings.HasPrefix(s, "-")`. -/
def dashLed (s : String) : Bool :=
  ['-'].isPrefixOf s.data

/-- Model of Go `strings.TrimPrefix(s, "-")` after a positive
`HasPrefix` test. -/
def dropDash (s : String) : String :=
  ⟨s.data.drop 1⟩

/-- Model of Go `strconv.Atoi` / `strconv.ParseInt(s, 10, 64)`:
an optional sign followed by one or more decimal digits; anything else
is a parse error (`none`).  Overflow is not modelled (the verified
properties are insensitive to it: on overflow Go's Atoi errors, which
lands in the same default branch as any other parse error for the
inputs quantified over here). -/
def atoi? (s : String) : Option Int :=
  let core (ds : List Char) (sign : Bool) : Option Int :=
    if ds.isEmpty then none
    else if ds.all Char.isDigit then
      let n : Nat := ds.foldl (fun acc c => acc * 10 + (c.toNat - 48)) 0
      some (if sign then -(n : Int) else (n : Int))
    else none
  match s.data with
  | '-' :: rest => core rest true
  | '+' :: rest => core rest false
  | other => core other false

/-- Case-insensitive substring test on character lists (helper for the
SQL `ILIKE '%q%'` patterns used by the list handlers). -/
def hasSub (needle : List Char) : List Char → Bool
  | [] => needle.isEmpty
  | c :: t => needle.isPrefixOf (c :: t) || hasSub needle t

/-- Model of SQL `col ILIKE '%q%'`: case-insensitive containment. -/
def ilikeContains (hay q : String) : Bool :=
  hasSub (lowerStr q).data (lowerStr hay).data

/-- Query string of a request: each common parameter is either absent
(`none`) or present with its raw text value, as returned by
`r.URL.Query().Get`. -/
structure Query where
  org_id : Option String := none
  limit : Option String := none
  offset : Option String := none
  q : Option String := none
  sort : Option String := none
  site_id : Option String := none
  type_ : Option String := none
deriving Repr, DecidableEq

/-- Result of `parseListParams` (part_011 lines 10-16). -/
structure ListParams where
  orgID : Int
  limit : Int
  offset : Int
  q : String
  sort : String
deriving Repr, DecidableEq

/-- The `org_id` branch of `parseListParams` (part_011 lines 23-28):
default 1, replaced only by a positive parsed value. -/
def parseOrgIDParam (v : Option String) : Int :=
  match v with
  | none => 1
  | some s =>
    let t := goTrim s
    if t = "" then 1
    else match atoi? t with
      | some n => if n > 0 then n else 1
      | none => 1

/-- The `limit` branch of `parseListParams` (part_011 lines 30-38):
default 50, positive parsed values accepted and clamped to 200. -/
def parseLimitParam (v : Option String) : Int :=
  match v with
  | none => 50
  | some s =>
    let t := goTrim s
    if t = "" then 50
    else match atoi? t with
      | some n => if n > 0 then (if n > 200 then 200 else n) else 50
      | none => 50

/-- The `offset` branch of `parseListParams` (part_011 lines 40-45):
default 0, non-negative parsed values accepted. -/
def parseOffsetParam (v : Option String) : Int :=
  match v with
  | none => 0
  | some s =>
    let t := goTrim s
    if t = "" then 0
    else match atoi? t with
      | some n => if n ≥ 0 then n else 0
      | none => 0

/-- Embedding of `parseListParams` (part_011 lines 20-54).
Defaults org_id=1, limit=50 (clamped to 200), offset=0; `q` and `sort`
are the trimmed raw values. -/
def parseListParams (r : Query) : ListParams :=
  { orgID := parseOrgIDParam r.org_id
    limit := parseLimitParam r.limit
    offset := parseOffsetParam r.offset
    q := goTrim (r.q.getD "")
    sort := goTrim (r.sort.getD "") }

/-- Default ORDER BY clause of `buildOrderBy` (part_011 lines 61-66 and
90-95): the whitelisted `id` column when present, else literal `id`. -/
def defaultOrderBy (allowed : List (String × String)) : String :=
  match allowed.lookup "id" with
  | some col => " ORDER BY " ++ col ++ " ASC"
  | none => " ORDER BY id ASC"

/-- Clause list built by the loop of `buildOrderBy` (part_011 lines
68-89): split on commas, trim, drop empties, strip a leading `-` as the
DESC marker, keep only whitelisted keys. -/
def orderClauses (sortParam : String) (allowed : List (String × String)) :
    List String :=
  (splitComma sortParam).filterMap fun raw =>
    let s := goTrim raw
    if s = "" then none
    else
      let desc := dashLed s
      let s := if desc then dropDash s else s
      match allowed.lookup s with
      | some col => some (col ++ (if desc then " DESC" else " ASC"))
      | none => none

/-- Embedding of `buildOrderBy` (part_011 lines 60-97). -/
def buildOrderBy (sortParam : String) (allowed : List (String × String)) :
    String :=
  if sortParam = "" then defaultOrderBy allowed
  else
    let clauses := orderClauses sortParam allowed
    if clauses = [] then defaultOrderBy allowed
    else " ORDER BY " ++ String.intercalate ", " clauses

/-- Sort keys (column identifier, descending?) corresponding to the
clauses `buildOrderBy` emits; used to give the ORDER BY clause its
row-ordering semantics in the list models below. -/
def orderKeys (sortParam : String) (allowed : List (String × String)) :
    List (String × Bool) :=
  (splitComma sortParam).filterMap fun raw =>
    let s := goTrim raw
    if s = "" then none
    else
      let desc := dashLed s
      let s := if desc then dropDash s else s
      match allowed.lookup s with
      | some col => some (col, desc)
      | none => none

/-- Keys actually ordering the result set: the whitelisted keys when any
survive, else the default `id ASC` (mirrors the two default branches of
`buildOrderBy`). -/
def sortKeysUsed (sortParam : String) (allowed : List (String × String)) :
    List (String × Bool) :=
  if sortParam = "" then [((allowed.lookup "id").getD "id", false)]
  else
    let ks := orderKeys sortParam allowed
    if ks = [] then [((allowed.lookup "id").getD "id", false)]
    else ks

/-- Value of one sortable column of a row (SQL NULL is `none`-carrying
constructors). -/
inductive ColVal where
  | ival (n : Int)
  | sval (v : String)
  | osval (v : Option String)
  | oival (v : Option Int)
deriving Repr, DecidableEq

/-- Postgres default ordering of two column values under ASC: NULLs
sort last; mismatched shapes (impossible for a fixed column) tie. -/
def cmpVal : ColVal → ColVal → Ordering
  | .ival a, .ival b => compare a b
  | .sval a, .sval b => compare a b
  | .osval (some a), .osval (some b) => compare a b
  | .osval (some _), .osval none => .lt
  | .osval none, .osval (some _) => .gt
  | .osval none, .osval none => .eq
  | .oival (some a), .oival (some b) => compare a b
  | .oival (some _), .oival none => .lt
  | .oival none, .oival (some _) => .gt
  | .oival none, .oival none => .eq
  | _, _ => .eq

/-- Lexicographic comparison along the ORDER BY key list (DESC flips
the per-column ordering, matching Postgres where DESC also flips NULL
placement). -/
def lexCmp (colOf : String → α → ColVal) :
    List (String × Bool) → α → α → Ordering
  | [], _, _ => .eq
  | (k, desc) :: rest, a, b =>
    let o := cmpVal (colOf k a) (colOf k b)
    let o := if desc then o.swap else o
    match o with
    | .eq => lexCmp colOf rest a b
    | o => o

/-- Boolean `≤` for row sorting from the lexicographic comparison. -/
def leKeys (colOf : String → α → ColVal) (keys : List (String × Bool))
    (a b : α) : Bool :=
  lexCmp colOf keys a b ≠ .gt

/-- Stable insertion of a row into an ordered list: the new row goes
after the rows it ties with. -/
def insertRow (le : α → α → Bool) (x : α) : List α → List α
  | [] => [x]
  | y :: t => if le y x then y :: insertRow le x t else x :: y :: t

/-- Stable insertion sort realising the ORDER BY clause on the
list-modelled result set. -/
def sortRows (le : α → α → Bool) : List α → List α
  | [] => []
  | x :: t => insertRow le x (sortRows le t)

/-- SQL `LIMIT lim OFFSET off` applied to an ordered row list. -/
def applyPage (lim off : Int) (rows : List α) : List α :=
  (rows.drop off.toNat).take lim.toNat

/-- Row of the `assets` table (migration 0009); timestamps are modelled
as integers, `extras` as its raw JSON text. -/
structure Asset where
  id : Int
  orgId : Int
  siteId : Int
  assetType : String
  name : Option String := none
  vendor : Option String := none
  model : Option String := none
  serial : Option String := none
  mgmtIp : Option String := none
  status : Option String := none
  notes : Option String := none
  extras : String := "\x7b\x7d"
  createdAt : Int := 0
  updatedAt : Int := 0
deriving Repr, DecidableEq

/-- Row of `asset_switches` (migration 0010). -/
structure AssetSwitch where
  assetId : Int
  portsTotal : Option Int := none
  poe : Option Bool := none
  uplinkInfo : Option String := none
  firmware : Option String := none
deriving Repr, DecidableEq

/-- Row of `asset_vlans` (migration 0010). -/
structure AssetVLAN where
  assetId : Int
  vlanId : Int
  subnet : Option String := none
  gateway : Option String := none
  purpose : Option String := none
deriving Repr, DecidableEq

/-- Row of the `sites` table. -/
structure Site where
  id : Int
  orgId : Int
  name : String
  location : Option String := none
  notes : Option String := none
  createdAt : Int := 0
  updatedAt : Int := 0
deriving Repr, DecidableEq

/-- Row of the legacy `inventory` table (migration 0001/0006). -/
structure Item where
  id : Int
  orgId : Int
  assetTag : String
  name : String
  createdAt : Int := 0
  updatedAt : Int := 0
deriving Repr, DecidableEq

/-- Optional `site_id` filter shared by the asset-family handlers: the
clause is added only when the trimmed parameter is non-empty and parses
as an integer (part_015 lines 38-44). -/
def siteClauseOk (r : Query) (siteId : Int) : Bool :=
  match r.site_id with
  | none => true
  | some s =>
    let t := goTrim s
    if t = "" then true
    else match atoi? t with
      | some v => siteId == v
      | none => true

/-- WHERE predicate built by `listAssets` (part_015 lines 28-63):
`org_id = ctx`, optional `site_id`, optional `asset_type`, optional
`name ILIKE '%q%'` (NULL name never matches ILIKE). -/
def assetMatches (ctxOrg : Int) (r : Query) (p : ListParams) (a : Asset) :
    Bool :=
  (a.orgId == ctxOrg) &&
  siteClauseOk r a.siteId &&
  (match r.type_ with
   | none => true
   | some s =>
     let t := goTrim s
     if t = "" then true else a.assetType == t) &&
  (if p.q = "" then true
   else match a.name with
     | some n => ilikeContains n p.q
     | none => false)

/-- Sort whitelist of `listAssets` (part_015 lines 71-78). -/
def allowedSortAssets : List (String × String) :=
  [("id", "id"), ("name", "name"), ("asset_type", "asset_type"),
   ("vendor", "vendor"), ("created_at", "created_at"),
   ("updated_at", "updated_at")]

/-- Sortable column values of an asset row. -/
def assetColVal : String → Asset → ColVal
  | "id", a => .ival a.id
  | "name", a => .osval a.name
  | "asset_type", a => .sval a.assetType
  | "vendor", a => .osval a.vendor
  | "created_at", a => .ival a.createdAt
  | "updated_at", a => .ival a.updatedAt
  | _, _ => .ival 0

/-- Effective LIMIT of `listAssets`: `parseListParams` then the extra
cap at 100 (part_015 lines 23-26). -/
def listAssetsEffLimit (r : Query) : Int :=
  let p := parseListParams r
  if p.limit > 100 then 100 else p.limit

/-- Rows returned by `GET /assets` (`listAssets`, part_015 lines
19-120): filter by the context org and the optional filters, order by
the whitelisted sort keys, page by LIMIT/OFFSET. -/
def listAssetsRows (db : List Asset) (ctxOrg : Int) (r : Query) :
    List Asset :=
  let p := parseListParams r
  let filtered := db.filter (assetMatches ctxOrg r p)
  let sorted :=
    sortRows (leKeys assetColVal (sortKeysUsed p.sort allowedSortAssets)) filtered
  applyPage (listAssetsEffLimit r) p.offset sorted

/-- WHERE predicate of `listSwitches` (part_015 lines 448-473):
`asset_type = 'switch'`, `org_id = ctx`, optional site, optional name
search (no `type` filter on this endpoint). -/
def switchMatches (ctxOrg : Int) (r : Query) (p : ListParams) (a : Asset) :
    Bool :=
  (a.assetType == "switch") &&
  (a.orgId == ctxOrg) &&
  siteClauseOk r a.siteId &&
  (if p.q = "" then true
   else match a.name with
     | some n => ilikeContains n p.q
     | none => false)

/-- Sort whitelist of `listSwitches` (part_015 lines 483-489). -/
def allowedSortSwitches : List (String × String) :=
  [("id", "a.id"), ("name", "a.name"), ("vendor", "a.vendor"),
   ("created_at", "a.created_at"), ("updated_at", "a.updated_at")]

/-- Sortable column values of a switch-join row. -/
def switchColVal : String → Asset × Option AssetSwitch → ColVal
  | "a.id", x => .ival x.1.id
  | "a.name", x => .osval x.1.name
  | "a.vendor", x => .osval x.1.vendor
  | "a.created_at", x => .ival x.1.createdAt
  | "a.updated_at", x => .ival x.1.updatedAt
  | _, _ => .ival 0

/-- Rows returned by `GET /switches` (`listSwitches`, part_015 lines
439-538): LEFT JOIN `asset_switches` on `asset_id`. -/
def listSwitchesRows (db : List Asset) (subs : List AssetSwitch)
    (ctxOrg : Int) (r : Query) : List (Asset × Option AssetSwitch) :=
  let p := parseListParams r
  let lim := if p.limit > 100 then 100 else p.limit
  let joined :=
    (db.filter (switchMatches ctxOrg r p)).map
      (fun a => (a, subs.find? (fun s => s.assetId == a.id)))
  let sorted :=
    sortRows (leKeys switchColVal (sortKeysUsed p.sort allowedSortSwitches)) joined
  applyPage lim p.offset sorted

/-- WHERE predicate of `listVLANs` (part_015 lines 550-575). -/
def vlanMatches (ctxOrg : Int) (r : Query) (p : ListParams) (a : Asset) :
    Bool :=
  (a.assetType == "vlan") &&
  (a.orgId == ctxOrg) &&
  siteClauseOk r a.siteId &&
  (if p.q = "" then true
   else match a.name with
     | some n => ilikeContains n p.q
     | none => false)

/-- Sort whitelist of `listVLANs` (part_015 lines 585-591). -/
def allowedSortVLANs : List (String × String) :=
  [("id", "a.id"), ("name", "a.name"), ("vlan_id", "v.vlan_id"),
   ("created_at", "a.created_at"), ("updated_at", "a.updated_at")]

/-- Sortable column values of a VLAN-join row. -/
def vlanColVal : String → Asset × Option AssetVLAN → ColVal
  | "a.id", x => .ival x.1.id
  | "a.name", x => .osval x.1.name
  | "v.vlan_id", x => .oival (x.2.map (fun v => v.vlanId))
  | "a.created_at", x => .ival x.1.createdAt
  | "a.updated_at", x => .ival x.1.updatedAt
  | _, _ => .ival 0

/-- Rows returned by `GET /vlans` (`listVLANs`, part_015 lines
541-648). -/
def listVLANsRows (db : List Asset) (subs : List AssetVLAN)
    (ctxOrg : Int) (r : Query) : List (Asset × Option AssetVLAN) :=
  let p := parseListParams r
  let lim := if p.limit > 100 then 100 else p.limit
  let joined :=
    (db.filter (vlanMatches ctxOrg r p)).map
      (fun a => (a, subs.find? (fun s => s.assetId == a.id)))
  let sorted :=
    sortRows (leKeys vlanColVal (sortKeysUsed p.sort allowedSortVLANs)) joined
  applyPage lim p.offset sorted

/-- Sort whitelist of `listSites` (sites.go lines 48-53). -/
def allowedSortSites : List (String × String) :=
  [("id", "id"), ("name", "name"), ("created_at", "created_at"),
   ("updated_at", "updated_at")]

/-- Sortable column values of a site row. -/
def siteColVal : String → Site → ColVal
  | "id", s => .ival s.id
  | "name", s => .sval s.name
  | "created_at", s => .ival s.createdAt
  | "updated_at", s => .ival s.updatedAt
  | _, _ => .ival 0

/-- Effective LIMIT of `listSites`: `params.limit` is used directly,
with no further cap (sites.go line 55). -/
def listSitesEffLimit (r : Query) : Int :=
  (parseListParams r).limit

/-- Rows returned by `GET /sites` (`listSites`, sites.go lines 17-76):
`org_id = ctx` plus optional name search; no 100-cap on the limit. -/
def listSitesRows (db : List Site) (ctxOrg : Int) (r : Query) :
    List Site :=
  let p := parseListParams r
  let filtered := db.filter (fun s =>
    (s.orgId == ctxOrg) &&
    (if p.q = "" then true else ilikeContains s.name p.q))
  let sorted :=
    sortRows (leKeys siteColVal (sortKeysUsed p.sort allowedSortSites)) filtered
  applyPage (listSitesEffLimit r) p.offset sorted

/-- Sort whitelist of both `listItems` variants. -/
def allowedSortItems : List (String × String) :=
  [("id", "id"), ("name", "name"), ("created_at", "created_at"),
   ("updated_at", "updated_at")]

/-- Sortable column values of an inventory row. -/
def itemColVal : String → Item → ColVal
  | "id", i => .ival i.id
  | "name", i => .sval i.name
  | "created_at", i => .ival i.createdAt
  | "updated_at", i => .ival i.updatedAt
  | _, _ => .ival 0

/-- Rows returned by the part_010 variant of `GET /items` (part_010
lines 111-169): the org filter is `params.orgID`, i.e. the `org_id`
QUERY PARAMETER (default 1), not the authenticated context; `q`
searches name OR asset_tag; the limit is `params.limit` uncapped. -/
def listItemsRowsPart010 (db : List Item) (r : Query) : List Item :=
  let p := parseListParams r
  let filtered := db.filter (fun i =>
    (i.orgId == p.orgID) &&
    (if p.q = "" then true
     else ilikeContains i.name p.q || ilikeContains i.assetTag p.q))
  let sorted :=
    sortRows (leKeys itemColVal (sortKeysUsed p.sort allowedSortItems)) filtered
  applyPage p.limit p.offset sorted

/-- Rows returned by the items.go variant of `GET /items` (items.go
lines 18-83): like part_010 but the org filter is the authenticated
context value `auth.OrgIDFromContext`. -/
def listItemsRowsCtx (db : List Item) (ctxOrg : Int) (r : Query) :
    List Item :=
  let p := parseListParams r
  let filtered := db.filter (fun i =>
    (i.orgId == ctxOrg) &&
    (if p.q = "" then true
     else ilikeContains i.name p.q || ilikeContains i.assetTag p.q))
  let sorted :=
    sortRows (leKeys itemColVal (sortKeysUsed p.sort allowedSortItems)) filtered
  applyPage p.limit p.offset sorted

/-- Row of the `users` table (migration 0007), also the shape of
`models.User`. -/
structure User where
  id : Int
  email : String
  passwordHash : String := ""
  firstName : Option String := none
  lastName : Option String := none
  orgId : Int
  roles : List String
  isActive : Bool := true
  createdAt : Int := 0
  updatedAt : Int := 0
  lastLoginAt : Option Int := none
deriving Repr, DecidableEq

/-- Embedding of `containsRole` (server.go lines 719-726). -/
def containsRole : List String → String → Bool
  | [], _ => false
  | r :: t, role => if r == role then true else containsRole t role

/-- Role whitelist `models.ValidRoles`. -/
def validRoles : List String := ["viewer", "project_admin", "org_admin"]

/-- Embedding of `models.IsValidRole`. -/
def isValidRole (role : String) : Bool :=
  containsRole validRoles role

/-- Embedding of `models.ValidateRoles`: every role known and the list
non-empty. -/
def validateRoles (roles : List String) : Bool :=
  roles.all isValidRole && decide (0 < roles.length)

/-- Modelled from the spec: `auth.IsMainTenant` is called by the user
handlers but its definition is not under src/; per the spec glossary
the main tenant is the organization with id = 1, so the check is
`ctx.org_id = 1`. -/
def isMainTenant (ctxOrg : Int) : Bool :=
  ctxOrg == 1

/-- The `COUNT(*)` query of `deleteUser` (server.go line 501): other
active rows of the same org whose `roles` array overlaps
`{org_admin}`. -/
def otherActiveAdmins (db : List User) (orgId uid : Int) : Nat :=
  (db.filter (fun v =>
    v.orgId == orgId && containsRole v.roles "org_admin" &&
    v.isActive && !(v.id == uid))).length

/-- Outcome of the `deleteUser` handler. -/
inductive DeleteUserResult where
  | notFound
  | lastAdmin
  | deleted
deriving Repr, DecidableEq

/-- Embedding of `deleteUser` (server.go lines 476-534): look the user
up, refuse when it holds `org_admin` and no other active admin of its
org exists, otherwise delete the row (`id` is the primary key). -/
def deleteUser (db : List User) (uid : Int) :
    DeleteUserResult × List User :=
  match db.find? (fun u => u.id == uid) with
  | none => (.notFound, db)
  | some u =>
    if containsRole u.roles "org_admin" then
      if otherActiveAdmins db u.orgId uid == 0 then (.lastAdmin, db)
      else (.deleted, db.filter (fun v => !(v.id == uid)))
    else (.deleted, db.filter (fun v => !(v.id == uid)))

/-- Shape of `models.UpdateUserRequest`. -/
structure UpdateUserRequest where
  firstName : Option String := none
  lastName : Option String := none
  orgId : Option Int := none
  roles : Option (List String) := none
  isActive : Option Bool := none
deriving Repr, DecidableEq

/-- Whether `updateUser` collects at least one SET clause (server.go
lines 395-432). -/
def anyUserFieldProvided (req : UpdateUserRequest) : Bool :=
  req.firstName.isSome || req.lastName.isSome || req.orgId.isSome ||
  req.roles.isSome || req.isActive.isSome

/-- Field-wise application of the SET clauses of `updateUser`: each
provided field overwrites the column, absent fields keep the stored
value. -/
def applyUserUpdate (req : UpdateUserRequest) (u : User) : User :=
  { u with
    firstName := match req.firstName with
      | some v => some v
      | none => u.firstName
    lastName := match req.lastName with
      | some v => some v
      | none => u.lastName
    orgId := req.orgId.getD u.orgId
    roles := req.roles.getD u.roles
    isActive := req.isActive.getD u.isActive }

/-- Outcome of the `updateUser` handler. -/
inductive UpdateUserResult where
  | notFound
  | forbiddenOrgChange
  | invalidRoles
  | noFields
  | ok
deriving Repr, DecidableEq

/-- Embedding of `updateUser` (server.go lines 353-473): fetch the
row, guard cross-org moves (main tenant only) and role validity, then
apply the provided fields to the row with that id.  NO last-admin
check appears on this path. -/
def updateUser (db : List User) (uid : Int) (req : UpdateUserRequest)
    (ctxOrg : Int) : UpdateUserResult × List User :=
  match db.find? (fun u => u.id == uid) with
  | none => (.notFound, db)
  | some u =>
    if (match req.orgId with
        | some o => !(o == u.orgId)
        | none => false) && !(isMainTenant ctxOrg) then
      (.forbiddenOrgChange, db)
    else if (match req.roles with
        | some rs => !(validateRoles rs)
        | none => false) then
      (.invalidRoles, db)
    else if !(anyUserFieldProvided req) then
      (.noFields, db)
    else
      (.ok, db.map (fun v => if v.id == uid then applyUserUpdate req v else v))

/-- The target of C4: user `uid` exists, is an active `org_admin`, and
no other active `org_admin` of its organization exists. -/
def isLastActiveOrgAdmin (db : List User) (uid : Int) : Bool :=
  match db.find? (fun u => u.id == uid) with
  | none => false
  | some u =>
    containsRole u.roles "org_admin" && u.isActive &&
    (otherActiveAdmins db u.orgId uid == 0)

/-- Row of `site_asset_categories` (migration 0011 lines 3-9); the
`asset_count` INT column is modelled as `Nat` (it always stores a
`COUNT(*)`). -/
structure CounterRow where
  org : Int
  site : Int
  ty : String
  assetCount : Nat
deriving Repr, DecidableEq

/-- Database state seen by the counter trigger: the `assets` table and
the `site_asset_categories` table. -/
structure TriggerState where
  assets : List Asset
  counters : List CounterRow
deriving Repr, DecidableEq

/-- The WHERE clause of the counting query in
`refresh_site_asset_categories` (migration 0011 line 17). -/
def coordMatches (org site : Int) (ty : String) (a : Asset) : Bool :=
  a.orgId == org && a.siteId == site && a.assetType == ty

/-- The `COUNT(*)` of assets at one coordinate triple. -/
def countAssets (assets : List Asset) (org site : Int) (ty : String) : Nat :=
  (assets.filter (coordMatches org site ty)).length

/-- Primary-key test of `site_asset_categories`. -/
def counterKeyIs (org site : Int) (ty : String) (c : CounterRow) : Bool :=
  c.org == org && c.site == site && c.ty == ty

/-- The `INSERT ... ON CONFLICT (org_id, site_id, asset_type) DO
UPDATE SET asset_count = EXCLUDED.asset_count` of migration 0011
lines 14-19, on the list-modelled counter table (the primary key makes
at most one row match). -/
def upsertCounter (l : List CounterRow) (org site : Int) (ty : String)
    (cnt : Nat) : List CounterRow :=
  if l.any (counterKeyIs org site ty) then
    l.map (fun c =>
      if counterKeyIs org site ty c then { c with assetCount := cnt } else c)
  else l ++ [{ org := org, site := site, ty := ty, assetCount := cnt }]

/-- Embedding of `refresh_site_asset_categories` (migration 0011 lines
11-20): recompute the count at one triple and upsert it. -/
def refreshSiteAssetCategories (s : TriggerState) (org site : Int)
    (ty : String) : TriggerState :=
  { s with counters :=
      upsertCounter s.counters org site ty (countAssets s.assets org site ty) }

/-- Stored counter value at a triple, 0 when the row does not exist. -/
def counterValue (counters : List CounterRow) (org site : Int)
    (ty : String) : Nat :=
  match counters.find? (counterKeyIs org site ty) with
  | some c => c.assetCount
  | none => 0

/-- INSERT on `assets` followed by the INSERT branch of
`trg_assets_refresh_counts` (migration 0011 lines 27-29). -/
def insertAssetRow (s : TriggerState) (a : Asset) : TriggerState :=
  let s1 : TriggerState := { s with assets := s.assets ++ [a] }
  refreshSiteAssetCategories s1 a.orgId a.siteId a.assetType

/-- Replace the row with the given id (`id` is the primary key of
`assets`, so at most one row matches; the model replaces the first). -/
def replaceById : List Asset → Int → Asset → List Asset
  | [], _, _ => []
  | r :: l, aid, new =>
    if r.id == aid then new :: l else r :: replaceById l aid new

/-- Remove the row with the given id (primary-key semantics as for
`replaceById`). -/
def removeById : List Asset → Int → List Asset
  | [], _ => []
  | r :: l, aid => if r.id == aid then l else r :: removeById l aid

/-- Whether an UPDATE leaves the `(org_id, site_id, asset_type)`
triple unchanged — the negation of the `IS DISTINCT FROM` test of
migration 0011 line 33. -/
def sameCoord (a b : Asset) : Bool :=
  a.orgId == b.orgId && a.siteId == b.siteId && a.assetType == b.assetType

/-- UPDATE on `assets` (the row `aid` rewritten by `f`) followed by
the UPDATE branch of `trg_assets_refresh_counts` (migration 0011 lines
30-35): refresh the old triple when it changed, then the new one; both
refreshes run on the post-update table, as the trigger fires AFTER the
row change inside the same transaction. -/
def updateAssetRow (s : TriggerState) (aid : Int) (f : Asset → Asset) :
    TriggerState :=
  match s.assets.find? (fun r => r.id == aid) with
  | none => s
  | some old =>
    let new := f old
    let s1 : TriggerState := { s with assets := replaceById s.assets aid new }
    let s2 :=
      if sameCoord old new then s1
      else refreshSiteAssetCategories s1 old.orgId old.siteId old.assetType
    refreshSiteAssetCategories s2 new.orgId new.siteId new.assetType

/-- DELETE on `assets` followed by the DELETE branch of
`trg_assets_refresh_counts` (migration 0011 lines 36-38). -/
def deleteAssetRow (s : TriggerState) (aid : Int) : TriggerState :=
  match s.assets.find? (fun r => r.id == aid) with
  | none => s
  | some old =>
    let s1 : TriggerState := { s with assets := removeById s.assets aid }
    refreshSiteAssetCategories s1 old.orgId old.siteId old.assetType

/-- The counter law: at every triple the stored count (0 when the row
is absent) equals the number of assets with those coordinates. -/
def counterInv (s : TriggerState) : Prop :=
  ∀ (org site : Int) (ty : String),
    counterValue s.counters org site ty = countAssets s.assets org site ty

/-- Upper-casing counterpart of `lowerStr` (Go `strings.ToUpper`). -/
def upperStr (s : String) : String :=
  ⟨s.data.map Char.toUpper⟩

/-- Character-level worker for `splitOn`-style helpers. -/
def splitCharAux (sep : Char) : List Char → List Char → List (List Char)
  | [], acc => [acc.reverse]
  | c :: t, acc =>
    if c = sep then acc.reverse :: splitCharAux sep t []
    else splitCharAux sep t (c :: acc)

/-- Digit-run test for IP octets and prefixes. -/
def allDigits (l : List Char) : Bool :=
  !l.isEmpty && l.all Char.isDigit

/-- Decimal value of a digit run. -/
def digitsVal (l : List Char) : Nat :=
  l.foldl (fun a c => a * 10 + (c.toNat - 48)) 0

/-- One dotted-quad octet: digits, ≤ 255, no leading zero. -/
def validOctet (l : List Char) : Bool :=
  allDigits l && decide (digitsVal l ≤ 255) &&
  (decide (l.length = 1) || !(l.head? == some '0'))

/-- Model of Go `net.ParseIP` restricted to dotted-quad IPv4 (Go also
accepts IPv6; none of the verified properties depends on the exact
accepted set, only on malformed text failing and plain quads
passing). -/
def parseIPv4? (s : String) : Option String :=
  let parts := splitCharAux '.' s.data []
  if decide (parts.length = 4) && parts.all validOctet then some s
  else none

/-- Model of Go `net.ParseCIDR`: IPv4 address, a slash, a prefix
length ≤ 32 (the network-masking of the Go result is not modelled; no
verified property reads CIDR values). -/
def parseCIDR? (s : String) : Option String :=
  match splitCharAux '/' s.data [] with
  | [ip, pfx] =>
    if (parseIPv4? ⟨ip⟩).isSome && allDigits pfx &&
        decide (digitsVal pfx ≤ 32) then some s
    else none
  | _ => none

/-- Shape check for the importer's four timestamp layouts
(`YYYY-MM-DD`, `YYYY-MM-DD HH:MM:SS`, `MM/DD/YYYY`,
`MM/DD/YYYY HH:MM:SS`); Go's `time.Parse` additionally validates
component ranges, which no verified property depends on. -/
def timestampShapeOk (s : String) : Bool :=
  let digitsAt (l : List Char) (idxs : List Nat) : Bool :=
    idxs.all (fun i => (l.get? i).any Char.isDigit)
  let l := s.data
  (decide (l.length = 10) &&
    ((digitsAt l [0, 1, 2, 3, 5, 6, 8, 9] &&
      (l.get? 4 == some '-') && (l.get? 7 == some '-')) ||
     (digitsAt l [0, 1, 3, 4, 6, 7, 8, 9] &&
      (l.get? 2 == some '/') && (l.get? 5 == some '/')))) ||
  (decide (l.length = 19) &&
    ((digitsAt l [0, 1, 2, 3, 5, 6, 8, 9] &&
      (l.get? 4 == some '-') && (l.get? 7 == some '-')) ||
     (digitsAt l [0, 1, 3, 4, 6, 7, 8, 9] &&
      (l.get? 2 == some '/') && (l.get? 5 == some '/'))) &&
    digitsAt l [11, 12, 14, 15, 17, 18] &&
    (l.get? 10 == some ' ') && (l.get? 13 == some ':') &&
    (l.get? 16 == some ':'))

/-- Switch sub-payload of an asset create request
(`models.CreateAssetSwitchRequest`). -/
structure CreateSwitchReq where
  portsTotal : Option Int := none
  poe : Option Bool := none
  uplinkInfo : Option String := none
  firmware : Option String := none
deriving Repr, DecidableEq

/-- VLAN sub-payload of an asset create request
(`models.CreateAssetVLANRequest`). -/
structure CreateVLANReq where
  vlanId : Int
  subnet : Option String := none
  gateway : Option String := none
  purpose : Option String := none
deriving Repr, DecidableEq

/-- Shape of `models.CreateAssetRequest`; `extras` is carried as raw
JSON text. -/
structure CreateAssetRequest where
  siteId : Int
  assetType : String
  name : Option String := none
  vendor : Option String := none
  model : Option String := none
  serial : Option String := none
  mgmtIp : Option String := none
  status : Option String := none
  notes : Option String := none
  extras : Option String := none
  switch : Option CreateSwitchReq := none
  vlan : Option CreateVLANReq := none
deriving Repr, DecidableEq

/-- The three tables `createAsset` writes. -/
structure AssetDB where
  assets : List Asset := []
  switches : List AssetSwitch := []
  vlans : List AssetVLAN := []
deriving Repr, DecidableEq

/-- Next `BIGSERIAL` id for the assets table. -/
def freshAssetId (assets : List Asset) : Int :=
  (assets.foldl (fun m a => if a.id > m then a.id else m) 0) + 1

/-- Outcome of the `createAsset` handler. -/
inductive CreateAssetResult where
  | badRequest
  | invalidIP
  | subtypeSwitchFailed
  | subtypeVlanFailed
  | created (id : Int)
deriving Repr, DecidableEq

/-- The asset row `createAsset` INSERTs (part_015 lines 206-211). -/
def assetRowOf (db : AssetDB) (req : CreateAssetRequest) (orgID : Int)
    (mgmtIP : Option String) : Asset :=
  { id := freshAssetId db.assets
    orgId := orgID
    siteId := req.siteId
    assetType := req.assetType
    name := req.name
    vendor := req.vendor
    model := req.model
    serial := req.serial
    mgmtIp := mgmtIP
    status := req.status
    notes := req.notes
    extras := req.extras.getD "\x7b\x7d" }

/-- Embedding of `createAsset` (part_015 lines 164-264).  The three
INSERTs run on `dbFrom(ctx)` — a pool or a plain RLS connection, never
a transaction — so each statement commits on its own.  The Booleans
inject the only failure mode the claim is about: the subtype INSERT
erroring after the asset INSERT succeeded (duplicate subtype row,
constraint violation, connection loss).  On such a failure the handler
returns 500 with the asset row already committed. -/
def createAsset (db : AssetDB) (req : CreateAssetRequest) (orgID : Int)
    (switchInsertFails vlanInsertFails : Bool) :
    CreateAssetResult × AssetDB :=
  if req.siteId == 0 || req.assetType == "" then (.badRequest, db)
  else
    let mgmtParsed : Option (Option String) :=
      match req.mgmtIp with
      | none => some none
      | some s =>
        match parseIPv4? s with
        | some ip => some (some ip)
        | none => none
    match mgmtParsed with
    | none => (.invalidIP, db)
    | some mgmtIP =>
      let a := assetRowOf db req orgID mgmtIP
      let db1 : AssetDB := { db with assets := db.assets ++ [a] }
      match req.switch with
      | some sw =>
        if switchInsertFails then (.subtypeSwitchFailed, db1)
        else
          let db2 : AssetDB := { db1 with switches := db1.switches ++
            [{ assetId := a.id, portsTotal := sw.portsTotal, poe := sw.poe,
               uplinkInfo := sw.uplinkInfo, firmware := sw.firmware }] }
          match req.vlan with
          | some vl =>
            if vlanInsertFails then (.subtypeVlanFailed, db2)
            else
              (.created a.id, { db2 with vlans := db2.vlans ++
                [{ assetId := a.id, vlanId := vl.vlanId, subnet := vl.subnet,
                   gateway := vl.gateway, purpose := vl.purpose }] })
          | none => (.created a.id, db2)
      | none =>
        match req.vlan with
        | some vl =>
          if vlanInsertFails then (.subtypeVlanFailed, db1)
          else
            (.created a.id, { db1 with vlans := db1.vlans ++
              [{ assetId := a.id, vlanId := vl.vlanId, subnet := vl.subnet,
                 gateway := vl.gateway, purpose := vl.purpose }] })
        | none => (.created a.id, db1)

/-- Embedding of `models.User.Redacted` (models/site.go lines 168-182):
a copy without `PasswordHash`, whose zero value is the empty string. -/
def Redacted (u : User) : User :=
  { id := u.id
    email := u.email
    passwordHash := ""
    firstName := u.firstName
    lastName := u.lastName
    orgId := u.orgId
    roles := u.roles
    isActive := u.isActive
    createdAt := u.createdAt
    updatedAt := u.updatedAt
    lastLoginAt := u.lastLoginAt }

/-- The JSON keys `encoding/json` emits for a `models.User` value, per
the struct tags (models/site.go lines 22-34): `PasswordHash` carries
tag `json:"-"` and is never serialized, whatever its value; the
pointer fields carry `omitempty` and drop when nil. -/
def userJSONKeys (u : User) : List String :=
  ["id", "email"] ++
  (match u.firstName with
   | some _ => ["first_name"]
   | none => []) ++
  (match u.lastName with
   | some _ => ["last_name"]
   | none => []) ++
  ["org_id", "roles", "is_active", "created_at", "updated_at"] ++
  (match u.lastLoginAt with
   | some _ => ["last_login_at"]
   | none => [])

/-- The user object `createUser` returns (server.go lines 213-227): a
literal `models.User` whose `PasswordHash` is never set, hence the
zero value. -/
def createUserResponseUser (uid : Int) (email : String)
    (firstName lastName : Option String) (orgId : Int)
    (roles : List String) (createdAt updatedAt : Int) : User :=
  { id := uid
    email := email
    passwordHash := ""
    firstName := firstName
    lastName := lastName
    orgId := orgId
    roles := roles
    isActive := true
    createdAt := createdAt
    updatedAt := updatedAt
    lastLoginAt := none }

/-- Typed cell value produced by the importer's `parseValue`. -/
inductive Value where
  | vstr (s : String)
  | vint (n : Int)
  | vbool (b : Bool)
  | vip (s : String)
  | vcidr (s : String)
  | vtime (s : String)
deriving Repr, DecidableEq

/-- Model of Go `strings.TrimSuffix(valueType, "?")`. -/
def trimQMark (s : String) : String :=
  match s.data.reverse with
  | '?' :: rest => ⟨rest.reverse⟩
  | _ => s

/-- Embedding of `parseValue` (part_019 lines 530-570). -/
def parseValue (value valueType : String) : Except String Value :=
  let vt := trimQMark valueType
  if vt == "TEXT" || vt == "string" then .ok (.vstr value)
  else if vt == "INT" || vt == "int" then
    match atoi? value with
    | some n => .ok (.vint n)
    | none => .error ("invalid int: " ++ value)
  else if vt == "BOOL" || vt == "bool" then
    let v := lowerStr value
    .ok (.vbool (v == "yes" || v == "y" || v == "true" || v == "1"))
  else if vt == "INET" || vt == "ip" then
    match parseIPv4? value with
    | some ip => .ok (.vip ip)
    | none => .error ("invalid IP address: " ++ value)
  else if vt == "CIDR" || vt == "cidr" then
    match parseCIDR? value with
    | some c => .ok (.vcidr c)
    | none => .error ("invalid CIDR: " ++ value)
  else if vt == "TIMESTAMP" || vt == "timestamp" then
    if timestampShapeOk value then .ok (.vtime value)
    else .error ("invalid timestamp format: " ++ value)
  else .ok (.vstr value)

/-- Column declaration of the mapping document. -/
structure ColumnConfig where
  field : String
  type_ : String
deriving Repr, DecidableEq

/-- Computed-field declaration of the mapping document. -/
structure ComputedConfig where
  fn : String
  args : List String
deriving Repr, DecidableEq

/-- Per-sheet mapping declaration (part_019 lines 197-206); Go maps
become association lists. -/
structure SheetConfig where
  assetType : String
  naturalKey : List String
  aliases : List (String × List String) := []
  columns : List (String × ColumnConfig) := []
  computed : List (String × ComputedConfig) := []
  subtype : String := ""
  subtypeFields : List (String × String) := []
  toAsset : List (String × String) := []
deriving Repr, DecidableEq

/-- Mapping document (part_019 lines 190-195). -/
structure MappingConfig where
  defaultOrgFields : List (String × String) := []
  sheets : List (String × SheetConfig) := []
deriving Repr, DecidableEq

/-- The Equipment sheet declaration of the built-in mapping (part_019
lines 296-319). -/
def equipmentSheet : SheetConfig :=
  { assetType := "switch"
    naturalKey := ["serial", "name"]
    aliases :=
      [("Serial", ["Serial Number", "S/N"]),
       ("MgmtIP", ["Mgmt IP", "IP Address"])]
    columns :=
      [("AssetType", { field := "asset_type", type_ := "TEXT" }),
       ("Name", { field := "name", type_ := "TEXT" }),
       ("Vendor", { field := "vendor", type_ := "TEXT" }),
       ("Model", { field := "model", type_ := "TEXT" }),
       ("Serial", { field := "serial", type_ := "TEXT" }),
       ("MgmtIP", { field := "mgmt_ip", type_ := "INET" }),
       ("Status", { field := "status", type_ := "TEXT" }),
       ("Notes", { field := "notes", type_ := "TEXT" })]
    subtype := "asset_switches"
    subtypeFields :=
      [("ports_total", "NumPorts"), ("firmware", "Firmware")] }

/-- The built-in mapping returned by `loadMappingConfig` (part_019
lines 288-322). -/
def loadMappingConfig : MappingConfig :=
  { defaultOrgFields := [("status_default", "active")]
    sheets := [("Equipment", equipmentSheet)] }

/-- Map-like write into the accumulated asset payload: overwrite the
field when present, append it otherwise. -/
def setField (l : List (String × Value)) (k : String) (v : Value) :
    List (String × Value) :=
  if l.any (fun p => p.1 == k) then
    l.map (fun p => if p.1 == k then (k, v) else p)
  else l ++ [(k, v)]

/-- Digits of a natural number, for the `cidr_from` computed field. -/
def natChars (n : Nat) : List Char :=
  if h : n < 10 then [Char.ofNat (48 + n)]
  else natChars (n / 10) ++ [Char.ofNat (48 + n % 10)]
decreasing_by
  exact Nat.div_lt_self (Nat.lt_of_lt_of_le (by omega) (Nat.le_of_not_lt h))
    (by omega)

/-- The column loop of `buildAssetData` (part_019 lines 478-505),
folded over the declared columns in order (Go iterates the map in
unspecified order; each column writes a distinct field, so only the
error precedence can differ). -/
def buildColumns (rowData : List (String × String))
    (aliasMap : List (String × String)) :
    List (String × ColumnConfig) → List (String × Value) →
    Except String (List (String × Value))
  | [], acc => .ok acc
  | (headerName, colCfg) :: rest, acc =>
    let value? :=
      match rowData.lookup (upperStr headerName) with
      | some v => some v
      | none =>
        -- the alias branch of the source re-reads the same key and
        -- therefore never yields a value the direct read did not
        match aliasMap.lookup (upperStr headerName) with
        | some _ => rowData.lookup (upperStr headerName)
        | none => none
    match value? with
    | none => buildColumns rowData aliasMap rest acc
    | some v =>
      if v == "" then buildColumns rowData aliasMap rest acc
      else
        match parseValue v colCfg.type_ with
        | .error e => .error ("failed to parse " ++ headerName ++ ": " ++ e)
        | .ok pv => buildColumns rowData aliasMap rest (setField acc colCfg.field pv)

/-- The `computed` loop of `buildAssetData` (part_019 lines 513-525);
only `cidr_from` is defined. -/
def applyComputed (acc : List (String × Value)) :
    List (String × ComputedConfig) → List (String × Value)
  | [] => acc
  | (field, cc) :: rest =>
    let acc :=
      if cc.fn == "cidr_from" then
        match acc.lookup "network", acc.lookup "cidr" with
        | some (.vip ip), some (.vint c) =>
          if c ≥ 0 then
            match parseCIDR? (ip ++ "/" ++ ⟨natChars c.toNat⟩) with
            | some cs => setField acc field (.vcidr cs)
            | none => acc
          else acc
        | _, _ => acc
      else acc
    applyComputed acc rest

/-- Embedding of `buildAssetData` (part_019 lines 470-528): status
default, typed columns, `to_asset` literals, computed fields. -/
def buildAssetData (rowData : List (String × String)) (config : SheetConfig)
    (defaultFields : List (String × String))
    (aliasMap : List (String × String)) :
    Except String (List (String × Value)) :=
  let acc0 : List (String × Value) :=
    match defaultFields.lookup "status_default" with
    | some v => [("status", .vstr v)]
    | none => []
  match buildColumns rowData aliasMap config.columns acc0 with
  | .error e => .error e
  | .ok acc1 =>
    let acc2 := config.toAsset.foldl
      (fun acc p => setField acc p.1 (.vstr p.2)) acc1
    .ok (applyComputed acc2 config.computed)

/-- Asset row as the importer sees it: fixed coordinates plus the
dynamic field map the INSERT/UPDATE statements touch. -/
structure ImpAsset where
  id : Int
  orgId : Int
  siteId : Int
  assetType : Option Value
  fields : List (String × Value) := []
deriving Repr, DecidableEq

/-- Subtype row written by the importer (`asset_switches` or
`asset_vlans`), keyed by table name and `asset_id`. -/
structure SubRow where
  table : String
  assetId : Int
  fields : List (String × Value) := []
deriving Repr, DecidableEq

/-- Database state the importer reads and writes. -/
structure ImpDB where
  assets : List ImpAsset := []
  subRows : List SubRow := []
deriving Repr, DecidableEq

/-- Error value returned by a pgx v5 connection.  `pgx.ErrNoRows` is a
sentinel DISTINCT from `database/sql.ErrNoRows`; the source compares
the two with Go `!=`, which is pointer identity on error values, so
the comparison never identifies pgx's no-rows result. -/
inductive PgxError where
  | noRows
  | other (msg : String)
deriving Repr, DecidableEq

/-- The Go test `err == sql.ErrNoRows` evaluated on an error value
coming from pgx: always false, because pgx never returns the
database/sql sentinel (its own `pgx.ErrNoRows` is a different error
value, merely wrapping the same message). -/
def eqSqlErrNoRows (_ : PgxError) : Bool := false

/-- The per-key SELECT of `findExistingAsset` for `serial`, `name` and
`mgmt_ip` (part_019 lines 579-588): `asset_type` is compared against
`assetData["asset_type"]` (SQL NULL when absent, matching nothing). -/
def queryByField (db : ImpDB) (field : String) (v : Value)
    (tyv : Option Value) (orgID siteID : Int) : List Int :=
  match tyv with
  | none => []
  | some tv =>
    (db.assets.filter (fun a =>
      a.orgId == orgID && a.siteId == siteID && a.assetType == some tv &&
      a.fields.lookup field == some v)).map (fun a => a.id)

/-- The `vlan_id` SELECT of `findExistingAsset` (part_019 lines
589-596): joined through `asset_vlans`. -/
def queryByVlanId (db : ImpDB) (v : Value) (tyv : Option Value)
    (orgID siteID : Int) : List Int :=
  match tyv with
  | none => []
  | some tv =>
    (db.assets.filter (fun a =>
      a.orgId == orgID && a.siteId == siteID && a.assetType == some tv &&
      db.subRows.any (fun s0 =>
        s0.table == "asset_vlans" && s0.assetId == a.id &&
        s0.fields.lookup "vlan_id" == some v))).map (fun a => a.id)

/-- Embedding of `findExistingAsset` (part_019 lines 572-612): try the
natural keys in order; an unrecognised key leaves `query` empty and
falls through; a `QueryRow` with no matching row yields
`pgx.ErrNoRows`, and the code's `err != sql.ErrNoRows` test
(`eqSqlErrNoRows` negated) then RETURNS the error instead of falling
through to the next key. -/
def findExistingAsset (db : ImpDB) (assetData : List (String × Value))
    (naturalKey : List String) (orgID siteID : Int) :
    Except PgxError Int :=
  match naturalKey with
  | [] => .ok 0
  | key :: rest =>
    match assetData.lookup key with
    | none => findExistingAsset db assetData rest orgID siteID
    | some v =>
      let ids? : Option (List Int) :=
        if key == "serial" || key == "name" || key == "mgmt_ip" then
          some (queryByField db key v (assetData.lookup "asset_type")
            orgID siteID)
        else if key == "vlan_id" then
          some (queryByVlanId db v (assetData.lookup "asset_type")
            orgID siteID)
        else none
      match ids? with
      | none => findExistingAsset db assetData rest orgID siteID
      | some ids =>
        match ids.head? with
        | some i => .ok i
        | none =>
          if eqSqlErrNoRows .noRows then
            findExistingAsset db assetData rest orgID siteID
          else .error .noRows

/-- The asset columns the importer's INSERT/UPDATE may touch
(part_019 lines 757-769). -/
def isAssetField (field : String) : Bool :=
  field == "name" || field == "vendor" || field == "model" ||
  field == "serial" || field == "mgmt_ip" || field == "status" ||
  field == "notes" || field == "extras"

/-- Next id for the importer's asset INSERT. -/
def freshImpId (assets : List ImpAsset) : Int :=
  (assets.foldl (fun m a => if a.id > m then a.id else m) 0) + 1

/-- Embedding of the importer's `insertAsset` (part_019 lines
614-691): INSERT the coordinates plus the asset fields of the payload
(ensuring `extras`), then the configured subtype row when any mapped
subtype field is present. -/
def insertAsset (db : ImpDB) (assetData : List (String × Value))
    (config : SheetConfig) (orgID siteID : Int) : ImpDB :=
  let newId := freshImpId db.assets
  let afields0 := assetData.filter (fun p =>
    !(p.1 == "asset_type") && isAssetField p.1)
  let afields :=
    if afields0.any (fun p => p.1 == "extras") then afields0
    else afields0 ++ [("extras", Value.vstr "\x7b\x7d")]
  let row : ImpAsset :=
    { id := newId, orgId := orgID, siteId := siteID,
      assetType := assetData.lookup "asset_type", fields := afields }
  let db1 : ImpDB := { db with assets := db.assets ++ [row] }
  if !(config.subtype == "") && !config.subtypeFields.isEmpty then
    let collected := config.subtypeFields.filterMap (fun p =>
      (assetData.lookup p.2).map (fun v => (p.1, v)))
    if !collected.isEmpty then
      { db1 with subRows := db1.subRows ++
        [{ table := config.subtype, assetId := newId, fields := collected }] }
    else db1
  else db1

/-- Embedding of the importer's `updateAsset` (part_019 lines
693-755): SET the payload's asset fields on the matched row, then
upsert the subtype row by `asset_id`. -/
def updateAsset (db : ImpDB) (assetID : Int)
    (assetData : List (String × Value)) (config : SheetConfig) : ImpDB :=
  let setParts := assetData.filter (fun p =>
    !(p.1 == "asset_type") && isAssetField p.1)
  let db1 : ImpDB :=
    if setParts.isEmpty then db
    else { db with assets := db.assets.map (fun a =>
      if a.id == assetID then
        { a with fields :=
            (setParts.foldl (fun fs p => setField fs p.1 p.2) a.fields) }
      else a) }
  if !(config.subtype == "") && !config.subtypeFields.isEmpty then
    let collected := config.subtypeFields.filterMap (fun p =>
      (assetData.lookup p.2).map (fun v => (p.1, v)))
    if !collected.isEmpty then
      if db1.subRows.any (fun s0 =>
          s0.table == config.subtype && s0.assetId == assetID) then
        { db1 with subRows := db1.subRows.map (fun s0 =>
          if s0.table == config.subtype && s0.assetId == assetID then
            { s0 with fields :=
                (collected.foldl (fun fs p => setField fs p.1 p.2) s0.fields) }
          else s0) }
      else
        { db1 with subRows := db1.subRows ++
          [{ table := config.subtype, assetId := assetID,
             fields := collected }] }
    else db1
  else db1

/-- Per-sheet import counters (part_019 lines 171-178; the bounded
error samples carry no control flow and are not modelled). -/
structure SheetSummary where
  name : String := ""
  inserted : Nat := 0
  updated : Nat := 0
  skipped : Nat := 0
  errors : Nat := 0
deriving Repr, DecidableEq

/-- Import options (part_019 lines 155-161). -/
structure ImportOptions where
  orgId : Int
  siteId : Int
  dryRun : Bool := false
  maxErrors : Int := 0
deriving Repr, DecidableEq

/-- One data row of `processSheet` (part_019 lines 399-462): skip
empty rows, build the payload, classify by natural key, and—in a real
run only—execute the write. -/
def processRow (db : ImpDB) (rowData : List (String × String))
    (config : SheetConfig) (defaults aliasMap : List (String × String))
    (opts : ImportOptions) (sum : SheetSummary) : SheetSummary × ImpDB :=
  if rowData.isEmpty then ({ sum with skipped := sum.skipped + 1 }, db)
  else
    match buildAssetData rowData config defaults aliasMap with
    | .error _ => ({ sum with errors := sum.errors + 1 }, db)
    | .ok assetData =>
      match findExistingAsset db assetData config.naturalKey opts.orgId
          opts.siteId with
      | .error _ => ({ sum with errors := sum.errors + 1 }, db)
      | .ok existingId =>
        if existingId > 0 then
          if opts.dryRun then ({ sum with updated := sum.updated + 1 }, db)
          else ({ sum with updated := sum.updated + 1 },
            updateAsset db existingId assetData config)
        else
          if opts.dryRun then ({ sum with inserted := sum.inserted + 1 }, db)
          else ({ sum with inserted := sum.inserted + 1 },
            insertAsset db assetData config opts.orgId opts.siteId)

/-- The row loop of `processSheet`, in file order. -/
def processRows (config : SheetConfig)
    (defaults aliasMap : List (String × String)) (opts : ImportOptions) :
    List (List (String × String)) → SheetSummary → ImpDB →
    SheetSummary × ImpDB
  | [], sum, db => (sum, db)
  | row :: rest, sum, db =>
    let (sum', db') := processRow db row config defaults aliasMap opts sum
    processRows config defaults aliasMap opts rest sum' db'

/-- Embedding of `processSheet` (part_019 lines 324-468) from the
point where each data row has been extracted into its header→cell
map (the xlsx cell iteration of lines 339-397 is pure input
decoding). -/
def processSheet (db : ImpDB) (name : String)
    (rows : List (List (String × String))) (config : SheetConfig)
    (defaults aliasMap : List (String × String)) (opts : ImportOptions) :
    SheetSummary × ImpDB :=
  processRows config defaults aliasMap opts rows { name := name } db

/-- Overall import counters (part_019 lines 180-188). -/
structure ImportSummary where
  inserted : Nat := 0
  updated : Nat := 0
  skipped : Nat := 0
  errors : Nat := 0
  sheets : List SheetSummary := []
  dryRun : Bool := false
deriving Repr, DecidableEq

/-- Accumulation of a sheet summary into the running totals
(part_019 lines 271-277). -/
def accumSheet (sum : ImportSummary) (ss : SheetSummary) : ImportSummary :=
  { sum with
    inserted := sum.inserted + ss.inserted
    updated := sum.updated + ss.updated
    skipped := sum.skipped + ss.skipped
    errors := sum.errors + ss.errors
    sheets := sum.sheets ++ [ss] }

/-- The effective error bound: a zero `MaxErrors` defaults to 50
(part_019 lines 229-231). -/
def effMaxErrors (opts : ImportOptions) : Int :=
  if opts.maxErrors == 0 then 50 else opts.maxErrors

/-- The sheet loop of `ImportExcel` (part_019 lines 262-285): skip
unmapped sheets silently, accumulate mapped ones, and return with a
top-level error (`true`) as soon as the total error count exceeds the
bound — a check made only BETWEEN sheets. -/
def runSheets (mapping : MappingConfig)
    (defaults : List (String × String)) (opts : ImportOptions)
    (maxE : Int) :
    List (String × List (List (String × String))) → ImportSummary →
    ImpDB → ImportSummary × Bool × ImpDB
  | [], sum, db => (sum, false, db)
  | (name, rows) :: rest, sum, db =>
    match mapping.sheets.lookup name with
    | none => runSheets mapping defaults opts maxE rest sum db
    | some cfg =>
      let (ss, db') := processSheet db name rows cfg defaults [] opts
      let sum' := accumSheet sum ss
      if (sum'.errors : Int) > maxE then (sum', true, db')
      else runSheets mapping defaults opts maxE rest sum' db'

/-- Embedding of `ImportExcel` (part_019 lines 219-286) from the point
where the workbook has been decoded into named sheets of header→cell
row maps; the `SET app.current_org_id` session call touches no table.
The Boolean result is the top-level error. -/
def importExcel (db : ImpDB)
    (sheets : List (String × List (List (String × String))))
    (opts : ImportOptions) : ImportSummary × Bool × ImpDB :=
  let mapping := loadMappingConfig
  runSheets mapping mapping.defaultOrgFields opts (effMaxErrors opts)
    sheets { dryRun := opts.dryRun } db

/-- A concrete create request carrying a switch sub-payload, used by
the C5 statements. -/
def swCreateReq : CreateAssetRequest :=
  { siteId := 1
    assetType := "switch"
    switch := some {} }

/-- A concrete fully-populated user, used by the C9 statements. -/
def exampleUser : User :=
  { id := 1
    email := "a@b.c"
    passwordHash := "secret"
    firstName := some "A"
    lastName := some "B"
    orgId := 1
    roles := ["viewer"]
    lastLoginAt := some 7 }

/-- A one-switch database (serial S1, name N0) used by the import
scenario statements. -/
def impDb0 : ImpDB :=
  { assets :=
      [{ id := 1
         orgId := 1
         siteId := 5
         assetType := some (.vstr "switch")
         fields := [("serial", .vstr "S1"), ("name", .vstr "N0")] }] }

/-- Sheet whose second row can only be matched after the first row's
write renamed the asset (C3 scenario). -/
def c3Sheets : List (String × List (List (String × String))) :=
  [("Equipment",
    [[("ASSETTYPE", "switch"), ("SERIAL", "S1"), ("NAME", "N9")],
     [("ASSETTYPE", "switch"), ("NAME", "N9")]])]

/-- Rows of the C7 scenario: two rows with an unparsable `mgmt_ip`
followed by a valid update row. -/
def c7Rows : List (List (String × String)) :=
  [[("ASSETTYPE", "switch"), ("MGMTIP", "notanip")],
   [("ASSETTYPE", "switch"), ("MGMTIP", "notanip")],
   [("ASSETTYPE", "switch"), ("SERIAL", "S1")]]

/-- A row surviving LIMIT/OFFSET was among the input rows. -/
theorem mem_of_mem_applyPage {α : Type} {lim off : Int} {l : List α} {a : α}
    (h : a ∈ applyPage lim off l) : a ∈ l :=
  List.mem_of_mem_drop (List.mem_of_mem_take h)

/-- A successful association-list lookup exhibits a member pair. -/
theorem lookup_mem {α β : Type} [BEq α] [LawfulBEq α] (l : List (α × β))
    (k : α) (v : β) (h : l.lookup k = some v) : (k, v) ∈ l := by
  induction l with
  | nil => simp [List.lookup] at h
  | cons hd tl ih =>
    rw [List.lookup] at h
    by_cases hk : k == hd.1
    · simp [hk] at h
      cases hd with
      | mk a b =>
        simp at hk
        subst hk
        simp at h
        subst h
        exact List.mem_cons_self _ _
    · simp [hk] at h
      exact List.mem_cons_of_mem _ (ih h)

/-- Every clause the `buildOrderBy` loop emits is a whitelisted column
followed by `ASC` or `DESC`. -/
theorem orderClauses_whitelisted (sortParam : String)
    (allowed : List (String × String)) :
    ∀ cl ∈ orderClauses sortParam allowed,
      ∃ k col, (k, col) ∈ allowed ∧
        (cl = col ++ " ASC" ∨ cl = col ++ " DESC") := by
  intro cl hcl
  rw [orderClauses, List.mem_filterMap] at hcl
  obtain ⟨raw, _, hres⟩ := hcl
  by_cases he : goTrim raw = ""
  · simp [he] at hres
  · simp only [he, if_false] at hres
    rcases hlk : (allowed.lookup
        (if dashLed (goTrim raw) then dropDash (goTrim raw)
         else goTrim raw)) with _ | col
    · rw [hlk] at hres
      simp at hres
    · rw [hlk] at hres
      simp only [Option.some.injEq] at hres
      refine ⟨_, col, lookup_mem _ _ _ hlk, ?_⟩
      by_cases hd : dashLed (goTrim raw)
      · right
        rw [← hres]
        simp [hd]
      · left
        rw [← hres]
        simp [hd]

/-- C10. Sort-whitelist safety of `buildOrderBy`: the returned clause
is either the default (`id` column, or the literal `id` when the map
lacks an `id` key) or `" ORDER BY "` followed by clauses each of which
is a whitelist VALUE plus `ASC`/`DESC`; non-whitelisted keys and empty
segments contribute nothing, so arbitrary sort input never places a
non-whitelisted identifier into the generated SQL. -/
theorem C10_buildOrderBy_whitelist_safe (sortParam : String)
    (allowed : List (String × String)) :
    buildOrderBy sortParam allowed = defaultOrderBy allowed ∨
    (orderClauses sortParam allowed ≠ [] ∧
     buildOrderBy sortParam allowed =
       " ORDER BY " ++ String.intercalate ", " (orderClauses sortParam allowed) ∧
     ∀ cl ∈ orderClauses sortParam allowed,
       ∃ k col, (k, col) ∈ allowed ∧
         (cl = col ++ " ASC" ∨ cl = col ++ " DESC")) := by
  rw [buildOrderBy]
  by_cases hs : sortParam = ""
  · simp [hs]
  · rw [if_neg hs]
    by_cases hc : orderClauses sortParam allowed = []
    · simp [hc]
    · right
      rw [if_neg hc]
      exact ⟨hc, rfl, orderClauses_whitelisted sortParam allowed⟩

/-- Closed instance of the C10 theorem at a hostile sort string. -/
theorem C10_buildOrderBy_whitelist_safe_witness :
    buildOrderBy "-name,drop table users,," [("id", "id"), ("name", "name")] =
      defaultOrderBy [("id", "id"), ("name", "name")] ∨
    (orderClauses "-name,drop table users,," [("id", "id"), ("name", "name")] ≠ [] ∧
     buildOrderBy "-name,drop table users,," [("id", "id"), ("name", "name")] =
       " ORDER BY " ++ String.intercalate ", "
         (orderClauses "-name,drop table users,," [("id", "id"), ("name", "name")]) ∧
     ∀ cl ∈ orderClauses "-name,drop table users,," [("id", "id"), ("name", "name")],
       ∃ k col, (k, col) ∈ [("id", "id"), ("name", "name")] ∧
         (cl = col ++ " ASC" ∨ cl = col ++ " DESC")) :=
  C10_buildOrderBy_whitelist_safe "-name,drop table users,," [("id", "id"), ("name", "name")]

/-- Bounds of the parsed limit: always in [1, 200]. -/
theorem parseLimitParam_bounds (v : Option String) :
    1 ≤ parseLimitParam v ∧ parseLimitParam v ≤ 200 := by
  rcases v with _ | s
  · refine ⟨?_, ?_⟩ <;> norm_num [parseLimitParam]
  · simp only [parseLimitParam]
    refine ⟨?_, ?_⟩ <;>
    · split
      · norm_num
      · split
        · split
          · split <;> omega
          · norm_num
        · norm_num

/-- The parsed offset is never negative. -/
theorem parseOffsetParam_nonneg (v : Option String) :
    0 ≤ parseOffsetParam v := by
  rcases v with _ | s
  · norm_num [parseOffsetParam]
  · simp only [parseOffsetParam]
    split
    · norm_num
    · split
      · split <;> omega
      · norm_num

/-- C8 counterexample: `limit=150` is accepted verbatim by
`parseListParams` (cap is 200, not 100) and `listSites` applies it with
no further cap, so the effective page size of `GET /sites` is 150,
outside the claimed [1, 100]. -/
theorem C8_counterexample :
    listSitesEffLimit { limit := some "150" } = 150 ∧
    ¬ listSitesEffLimit { limit := some "150" } ≤ 100 := by
  have he : listSitesEffLimit { limit := some "150" } = 150 := by decide
  refine ⟨he, ?_⟩
  rw [he]
  omega

/-- C8 (amended). For every request: the parsed limit lies in [1, 200]
with default 50 when the parameter is absent, and the parsed offset is
non-negative; the asset-family endpoints additionally cap the effective
limit at 100, so their effective page size lies in [1, 100]. -/
theorem C8_pagination_bounds_amended (r : Query) :
    1 ≤ (parseListParams r).limit ∧ (parseListParams r).limit ≤ 200 ∧
    0 ≤ (parseListParams r).offset ∧
    1 ≤ listAssetsEffLimit r ∧ listAssetsEffLimit r ≤ 100 ∧
    (r.limit = none → (parseListParams r).limit = 50) := by
  have hb := parseLimitParam_bounds r.limit
  have ho := parseOffsetParam_nonneg r.offset
  have hl : (parseListParams r).limit = parseLimitParam r.limit := rfl
  have hoo : (parseListParams r).offset = parseOffsetParam r.offset := rfl
  have heff : listAssetsEffLimit r =
      (if parseLimitParam r.limit > 100 then 100 else parseLimitParam r.limit) := rfl
  refine ⟨by omega, by omega, by omega, ?_, ?_, ?_⟩
  · rw [heff]
    split <;> omega
  · rw [heff]
    split <;> omega
  · intro hn
    rw [hl, hn]
    rfl

/-- Membership is preserved by stable insertion. -/
theorem mem_insertRow {α : Type} {le : α → α → Bool} {x a : α}
    {l : List α} (h : a ∈ insertRow le x l) : a = x ∨ a ∈ l := by
  induction l with
  | nil =>
    simp [insertRow] at h
    exact Or.inl h
  | cons y t ih =>
    rw [insertRow] at h
    by_cases hle : le y x
    · rw [if_pos hle] at h
      rcases List.mem_cons.1 h with h | h
      · exact Or.inr (h ▸ List.mem_cons_self y t)
      · rcases ih h with h | h
        · exact Or.inl h
        · exact Or.inr (List.mem_cons_of_mem _ h)
    · rw [if_neg hle] at h
      rcases List.mem_cons.1 h with h | h
      · exact Or.inl h
      · exact Or.inr h

/-- Sorting does not add rows. -/
theorem mem_sortRows {α : Type} {le : α → α → Bool} {a : α}
    {l : List α} (h : a ∈ sortRows le l) : a ∈ l := by
  induction l with
  | nil => simp [sortRows] at h
  | cons y t ih =>
    rw [sortRows] at h
    rcases mem_insertRow h with h | h
    · exact h ▸ List.mem_cons_self y t
    · exact List.mem_cons_of_mem _ (ih h)

/-- C1 counterexample: an asset of organization 2 is filtered out of
`GET /assets` under the MAIN-tenant context (org 1), because
`listAssets` pins `org_id = ctx` for every context; the claim's
"main tenant sees all organizations' rows" is false at this input. -/
theorem C1_counterexample :
    ({ id := 1, orgId := 2, siteId := 1, assetType := "switch" } : Asset).orgId
        = 2 ∧
    listAssetsRows
        [{ id := 1, orgId := 2, siteId := 1, assetType := "switch" }] 1 {}
      = [] := by
  constructor
  · rfl
  · decide

/-- C1 (amended). Application-level tenant filtering: every row served
by `GET /assets`, `GET /switches`, `GET /vlans`, `GET /sites` and the
items.go variant of `GET /items` carries exactly the context org id —
so non-main tenants never see foreign rows, but the main tenant is
pinned to org 1 as well (it does NOT see all organizations); the
part_010 variant of `GET /items` instead filters by the `org_id` QUERY
PARAMETER (default 1) regardless of the authenticated context. -/
theorem C1_tenant_filter_amended :
    (∀ (db : List Asset) (g : Int) (r : Query) (a : Asset),
        a ∈ listAssetsRows db g r → a.orgId = g) ∧
    (∀ (db : List Asset) (subs : List AssetSwitch) (g : Int) (r : Query)
        (x : Asset × Option AssetSwitch),
        x ∈ listSwitchesRows db subs g r → x.1.orgId = g) ∧
    (∀ (db : List Asset) (subs : List AssetVLAN) (g : Int) (r : Query)
        (x : Asset × Option AssetVLAN),
        x ∈ listVLANsRows db subs g r → x.1.orgId = g) ∧
    (∀ (db : List Site) (g : Int) (r : Query) (s : Site),
        s ∈ listSitesRows db g r → s.orgId = g) ∧
    (∀ (db : List Item) (g : Int) (r : Query) (i : Item),
        i ∈ listItemsRowsCtx db g r → i.orgId = g) ∧
    (∀ (db : List Item) (r : Query) (i : Item),
        i ∈ listItemsRowsPart010 db r → i.orgId = (parseListParams r).orgID) := by
  refine ⟨?_, ?_, ?_, ?_, ?_, ?_⟩
  · intro db g r a ha
    simp only [listAssetsRows] at ha
    have h2 := mem_sortRows (mem_of_mem_applyPage ha)
    rw [List.mem_filter] at h2
    have hp := h2.2
    simp only [assetMatches, Bool.and_eq_true, beq_iff_eq] at hp
    exact hp.1.1.1
  · intro db subs g r x hx
    simp only [listSwitchesRows] at hx
    have h2 := mem_sortRows (mem_of_mem_applyPage hx)
    rw [List.mem_map] at h2
    obtain ⟨a, haf, hax⟩ := h2
    rw [List.mem_filter] at haf
    have hp := haf.2
    simp only [switchMatches, Bool.and_eq_true, beq_iff_eq] at hp
    rw [← hax]
    exact hp.1.1.2
  · intro db subs g r x hx
    simp only [listVLANsRows] at hx
    have h2 := mem_sortRows (mem_of_mem_applyPage hx)
    rw [List.mem_map] at h2
    obtain ⟨a, haf, hax⟩ := h2
    rw [List.mem_filter] at haf
    have hp := haf.2
    simp only [vlanMatches, Bool.and_eq_true, beq_iff_eq] at hp
    rw [← hax]
    exact hp.1.1.2
  · intro db g r s hs
    simp only [listSitesRows] at hs
    have h2 := mem_sortRows (mem_of_mem_applyPage hs)
    rw [List.mem_filter] at h2
    have hp := h2.2
    simp only [Bool.and_eq_true, beq_iff_eq] at hp
    exact hp.1
  · intro db g r i hi
    simp only [listItemsRowsCtx] at hi
    have h2 := mem_sortRows (mem_of_mem_applyPage hi)
    rw [List.mem_filter] at h2
    have hp := h2.2
    simp only [Bool.and_eq_true, beq_iff_eq] at hp
    exact hp.1
  · intro db r i hi
    simp only [listItemsRowsPart010] at hi
    have h2 := mem_sortRows (mem_of_mem_applyPage hi)
    rw [List.mem_filter] at h2
    have hp := h2.2
    simp only [Bool.and_eq_true, beq_iff_eq] at hp
    exact hp.1

/-- Closed instance of the amended C1 theorem: a non-main-tenant
context (org 2) receives its own row from `GET /assets` and the
theorem forces that row's org to be 2. -/
theorem C1_tenant_filter_amended_witness :
    ({ id := 7, orgId := 2, siteId := 1, assetType := "switch" } : Asset).orgId
      = 2 :=
  C1_tenant_filter_amended.1
    [{ id := 7, orgId := 2, siteId := 1, assetType := "switch" }] 2 {}
    { id := 7, orgId := 2, siteId := 1, assetType := "switch" }
    (by decide)

/-- Closed instance of the amended C8 theorem at an absent limit. -/
theorem C8_pagination_bounds_amended_witness :
    1 ≤ (parseListParams {}).limit ∧ (parseListParams {}).limit ≤ 200 ∧
    0 ≤ (parseListParams {}).offset ∧
    1 ≤ listAssetsEffLimit {} ∧ listAssetsEffLimit {} ≤ 100 ∧
    ({} : Query).limit = none ∧ (parseListParams {}).limit = 50 := by
  have h := C8_pagination_bounds_amended {}
  exact ⟨h.1, h.2.1, h.2.2.1, h.2.2.2.1, h.2.2.2.2.1, rfl, h.2.2.2.2.2 rfl⟩

/-- A per-id map step with an id-preserving payload commutes with the
id-keyed `find?`. -/
theorem find?_map_updateById (db : List User) (uid : Int) (g : User → User)
    (hg : ∀ v, (g v).id = v.id) :
    (db.map (fun v => if v.id == uid then g v else v)).find?
        (fun v => v.id == uid)
      = (db.find? (fun v => v.id == uid)).map
          (fun v => if v.id == uid then g v else v) := by
  rw [List.find?_map]
  have hfun : ((fun (v : User) => v.id == uid) ∘
      fun v => if v.id == uid then g v else v)
      = fun (v : User) => v.id == uid := by
    funext v
    by_cases h : (v.id == uid) = true
    · rw [Function.comp_apply, if_pos h, hg v]
    · rw [Function.comp_apply, if_neg h]
  rw [hfun]

/-- C4 counterexample: in an organization whose only active
`org_admin` is user 1, the update request `{is_active: false}` is NOT
rejected — `updateUser` answers ok and stores the row with
`is_active = false` (the last-admin guard exists only in
`deleteUser`). -/
theorem C4_counterexample :
    isLastActiveOrgAdmin
        [{ id := 1, email := "a@b.c", orgId := 2,
           roles := ["org_admin"] }] 1 = true ∧
    (updateUser
        [{ id := 1, email := "a@b.c", orgId := 2,
           roles := ["org_admin"] }] 1 { isActive := some false } 2).1
      = .ok ∧
    (updateUser
        [{ id := 1, email := "a@b.c", orgId := 2,
           roles := ["org_admin"] }] 1 { isActive := some false } 2).2
      = [{ id := 1, email := "a@b.c", orgId := 2,
           roles := ["org_admin"], isActive := false }] := by
  refine ⟨by decide, by decide, by decide⟩

/-- C4 (amended). Deleting the last active `org_admin` of an
organization is rejected and leaves the table unchanged; deactivating
that user through `updateUser` is NOT rejected: the handler runs no
admin-count check, answers ok, and persists `is_active = false` on the
row. -/
theorem C4_last_admin_amended :
    (∀ (db : List User) (uid : Int),
        isLastActiveOrgAdmin db uid = true →
        deleteUser db uid = (.lastAdmin, db)) ∧
    (∀ (db : List User) (uid : Int) (ctxOrg : Int) (u : User),
        db.find? (fun v => v.id == uid) = some u →
        (updateUser db uid { isActive := some false } ctxOrg).1 = .ok ∧
        (updateUser db uid { isActive := some false } ctxOrg).2.find?
            (fun v => v.id == uid)
          = some { u with isActive := false }) := by
  constructor
  · intro db uid h
    unfold isLastActiveOrgAdmin at h
    cases hf : db.find? (fun u => u.id == uid) with
    | none =>
      rw [hf] at h
      simp at h
    | some u =>
      rw [hf] at h
      simp only [Bool.and_eq_true] at h
      obtain ⟨⟨hrole, _⟩, hcnt⟩ := h
      unfold deleteUser
      rw [hf]
      simp only [hrole, hcnt, if_true]
  · intro db uid ctxOrg u hf
    have hstep : updateUser db uid { isActive := some false } ctxOrg
        = (.ok, db.map (fun v => if v.id == uid then
            applyUserUpdate { isActive := some false } v else v)) := by
      unfold updateUser
      rw [hf]
      rfl
    refine ⟨by rw [hstep], ?_⟩
    rw [hstep]
    dsimp only
    have hid : ∀ v, (applyUserUpdate { isActive := some false } v).id = v.id :=
      fun _ => rfl
    rw [find?_map_updateById db uid _ hid, hf]
    have hu := @List.find?_some User (fun v => v.id == uid) u db hf
    simp only [Option.map_some']
    rw [if_pos hu]
    rfl

/-- A triple that differs from a row's coordinates never matches it. -/
theorem coordMatches_false_of_ne (org site : Int) (ty : String) (a : Asset)
    (h : ¬(org = a.orgId ∧ site = a.siteId ∧ ty = a.assetType)) :
    coordMatches org site ty a = false := by
  by_contra hcon
  rw [Bool.not_eq_false] at hcon
  simp only [coordMatches, Bool.and_eq_true, beq_iff_eq] at hcon
  exact h ⟨hcon.1.1.symm, hcon.1.2.symm, hcon.2.symm⟩

/-- A counter row matching one key cannot match a different key. -/
theorem counterKeyIs_false_of_other (org site : Int) (ty : String)
    (org' site' : Int) (ty' : String) (c : CounterRow)
    (hc : counterKeyIs org site ty c = true)
    (hne : ¬(org' = org ∧ site' = site ∧ ty' = ty)) :
    counterKeyIs org' site' ty' c = false := by
  by_contra hcon
  rw [Bool.not_eq_false] at hcon
  simp only [counterKeyIs, Bool.and_eq_true, beq_iff_eq] at hc hcon
  exact hne ⟨hcon.1.1.symm.trans hc.1.1, hcon.1.2.symm.trans hc.1.2,
    hcon.2.symm.trans hc.2⟩

/-- Setting the count on every key row makes the stored value at that
key the new count (at least one key row must exist). -/
theorem counterValue_map_set (l : List CounterRow) (org site : Int)
    (ty : String) (cnt : Nat)
    (hany : l.any (counterKeyIs org site ty) = true) :
    counterValue
        (l.map (fun c =>
          if counterKeyIs org site ty c then { c with assetCount := cnt }
          else c)) org site ty
      = cnt := by
  induction l with
  | nil => simp at hany
  | cons c t ih =>
    rw [List.map_cons]
    by_cases hc : counterKeyIs org site ty c = true
    · rw [if_pos hc]
      have hc2 : counterKeyIs org site ty { c with assetCount := cnt } = true :=
        hc
      unfold counterValue
      rw [List.find?_cons_of_pos _ hc2]
    · rw [if_neg hc]
      have hany' : t.any (counterKeyIs org site ty) = true := by
        rw [List.any_cons] at hany
        simp only [hc, Bool.false_or] at hany
        exact hany
      have hrec := ih hany'
      unfold counterValue at hrec ⊢
      rw [List.find?_cons_of_neg _ hc]
      exact hrec

/-- Setting the count at one key leaves other keys' stored values
unchanged. -/
theorem counterValue_map_set_ne (l : List CounterRow) (org site : Int)
    (ty : String) (cnt : Nat) (org' site' : Int) (ty' : String)
    (hne : ¬(org' = org ∧ site' = site ∧ ty' = ty)) :
    counterValue
        (l.map (fun c =>
          if counterKeyIs org site ty c then { c with assetCount := cnt }
          else c)) org' site' ty'
      = counterValue l org' site' ty' := by
  induction l with
  | nil => rfl
  | cons c t ih =>
    rw [List.map_cons]
    by_cases hc : counterKeyIs org site ty c = true
    · rw [if_pos hc]
      have hc' : counterKeyIs org' site' ty' c = false :=
        counterKeyIs_false_of_other org site ty org' site' ty' c hc hne
      have hc'' : counterKeyIs org' site' ty'
          { c with assetCount := cnt } = false := hc'
      unfold counterValue
      rw [List.find?_cons_of_neg _ (by simp [hc'']),
        List.find?_cons_of_neg _ (by simp [hc'])]
      exact ih
    · rw [if_neg hc]
      by_cases hk : counterKeyIs org' site' ty' c = true
      · unfold counterValue
        rw [List.find?_cons_of_pos _ hk, List.find?_cons_of_pos _ hk]
      · unfold counterValue
        rw [List.find?_cons_of_neg _ hk, List.find?_cons_of_neg _ hk]
        exact ih

/-- Appending a fresh key row makes the stored value at that key the
new count, provided no row of that key existed. -/
theorem counterValue_append_new (l : List CounterRow) (org site : Int)
    (ty : String) (cnt : Nat)
    (hnone : l.find? (counterKeyIs org site ty) = none) :
    counterValue
        (l ++ [{ org := org, site := site, ty := ty, assetCount := cnt }])
        org site ty
      = cnt := by
  unfold counterValue
  rw [List.find?_append, hnone]
  have hself : counterKeyIs org site ty
      { org := org, site := site, ty := ty, assetCount := cnt } = true := by
    simp [counterKeyIs]
  rw [Option.none_or, List.find?_cons_of_pos _ hself]

/-- Appending a row of a different key leaves other keys' stored
values unchanged. -/
theorem counterValue_append_ne (l : List CounterRow) (org site : Int)
    (ty : String) (cnt : Nat) (org' site' : Int) (ty' : String)
    (hne : ¬(org' = org ∧ site' = site ∧ ty' = ty)) :
    counterValue
        (l ++ [{ org := org, site := site, ty := ty, assetCount := cnt }])
        org' site' ty'
      = counterValue l org' site' ty' := by
  unfold counterValue
  rw [List.find?_append]
  cases hfl : l.find? (counterKeyIs org' site' ty') with
  | some c => rfl
  | none =>
    have hnew : counterKeyIs org' site' ty'
        { org := org, site := site, ty := ty, assetCount := cnt } = false := by
      by_contra hcon
      rw [Bool.not_eq_false] at hcon
      simp only [counterKeyIs, Bool.and_eq_true, beq_iff_eq] at hcon
      exact hne ⟨hcon.1.1.symm, hcon.1.2.symm, hcon.2.symm⟩
    rw [Option.none_or, List.find?_cons_of_neg _ (by simp [hnew])]
    rfl

/-- The upsert of `refresh_site_asset_categories` stores exactly the
recomputed count at its key. -/
theorem counterValue_upsert_eq (l : List CounterRow) (org site : Int)
    (ty : String) (cnt : Nat) :
    counterValue (upsertCounter l org site ty cnt) org site ty = cnt := by
  unfold upsertCounter
  by_cases hany : l.any (counterKeyIs org site ty) = true
  · rw [if_pos hany]
    exact counterValue_map_set l org site ty cnt hany
  · rw [if_neg hany]
    apply counterValue_append_new
    rw [List.find?_eq_none]
    intro x hx hpx
    exact hany (List.any_eq_true.2 ⟨x, hx, hpx⟩)

/-- The upsert of `refresh_site_asset_categories` leaves every other
key's stored value unchanged. -/
theorem counterValue_upsert_ne (l : List CounterRow) (org site : Int)
    (ty : String) (cnt : Nat) (org' site' : Int) (ty' : String)
    (hne : ¬(org' = org ∧ site' = site ∧ ty' = ty)) :
    counterValue (upsertCounter l org site ty cnt) org' site' ty'
      = counterValue l org' site' ty' := by
  unfold upsertCounter
  by_cases hany : l.any (counterKeyIs org site ty) = true
  · rw [if_pos hany]
    exact counterValue_map_set_ne l org site ty cnt org' site' ty' hne
  · rw [if_neg hany]
    exact counterValue_append_ne l org site ty cnt org' site' ty' hne

/-- Counting over a cons cell. -/
theorem countAssets_cons (a : Asset) (l : List Asset) (org site : Int)
    (ty : String) :
    countAssets (a :: l) org site ty
      = (if coordMatches org site ty a then 1 else 0)
        + countAssets l org site ty := by
  unfold countAssets
  rw [List.filter_cons]
  by_cases h : coordMatches org site ty a = true
  · rw [if_pos h, if_pos h, List.length_cons]
    omega
  · rw [if_neg h, if_neg h]
    omega

/-- Counting over an appended row. -/
theorem countAssets_append (l : List Asset) (a : Asset) (org site : Int)
    (ty : String) :
    countAssets (l ++ [a]) org site ty
      = countAssets l org site ty
        + (if coordMatches org site ty a then 1 else 0) := by
  unfold countAssets
  rw [List.filter_append, List.length_append]
  congr 1
  by_cases h : coordMatches org site ty a = true
  · simp [List.filter, h]
  · simp [List.filter, h]

/-- Replacing a found row changes each coordinate count by the swap of
the old and new rows' memberships. -/
theorem count_replace_of_some (l : List Asset) (aid : Int)
    (new old : Asset) (org site : Int) (ty : String)
    (h : l.find? (fun r => r.id == aid) = some old) :
    countAssets (replaceById l aid new) org site ty
        + (if coordMatches org site ty old then 1 else 0)
      = countAssets l org site ty
        + (if coordMatches org site ty new then 1 else 0) := by
  induction l with
  | nil => simp at h
  | cons r t ih =>
    by_cases hr : (fun (r : Asset) => r.id == aid) r = true
    · rw [@List.find?_cons_of_pos Asset (fun r => r.id == aid) r t hr] at h
      injection h with h
      subst h
      rw [replaceById, if_pos hr, countAssets_cons, countAssets_cons]
      omega
    · rw [@List.find?_cons_of_neg Asset (fun r => r.id == aid) r t hr] at h
      rw [replaceById, if_neg hr, countAssets_cons, countAssets_cons]
      have := ih h
      omega

/-- Removing a found row decrements exactly the counts the old row
contributed to. -/
theorem count_remove_of_some (l : List Asset) (aid : Int) (old : Asset)
    (org site : Int) (ty : String)
    (h : l.find? (fun r => r.id == aid) = some old) :
    countAssets (removeById l aid) org site ty
        + (if coordMatches org site ty old then 1 else 0)
      = countAssets l org site ty := by
  induction l with
  | nil => simp at h
  | cons r t ih =>
    by_cases hr : (fun (r : Asset) => r.id == aid) r = true
    · rw [@List.find?_cons_of_pos Asset (fun r => r.id == aid) r t hr] at h
      injection h with h
      subst h
      rw [removeById, if_pos hr, countAssets_cons]
      omega
    · rw [@List.find?_cons_of_neg Asset (fun r => r.id == aid) r t hr] at h
      rw [removeById, if_neg hr, countAssets_cons, countAssets_cons]
      have := ih h
      omega

/-- C2. Counter law: if every `site_asset_categories` value agrees
with the live `COUNT(*)` over `assets`, then it still does after any
committed insert, update or delete of an asset row together with its
`trg_assets_refresh_counts` firing — on updates both the old and the
new `(org_id, site_id, asset_type)` triples are brought to the correct
value in the same transaction. -/
theorem C2_counter_law (s : TriggerState) (hinv : counterInv s) :
    (∀ a, counterInv (insertAssetRow s a)) ∧
    (∀ aid f, counterInv (updateAssetRow s aid f)) ∧
    (∀ aid, counterInv (deleteAssetRow s aid)) := by
  refine ⟨?_, ?_, ?_⟩
  · intro a org' site' ty'
    show counterValue
        (upsertCounter s.counters a.orgId a.siteId a.assetType
          (countAssets (s.assets ++ [a]) a.orgId a.siteId a.assetType))
        org' site' ty'
      = countAssets (s.assets ++ [a]) org' site' ty'
    by_cases hk : org' = a.orgId ∧ site' = a.siteId ∧ ty' = a.assetType
    · obtain ⟨e1, e2, e3⟩ := hk
      subst e1
      subst e2
      subst e3
      rw [counterValue_upsert_eq]
    · rw [counterValue_upsert_ne _ _ _ _ _ _ _ _ hk, hinv org' site' ty',
        countAssets_append, coordMatches_false_of_ne _ _ _ _ hk]
      simp
  · intro aid f org' site' ty'
    unfold updateAssetRow
    cases hf : s.assets.find? (fun r => r.id == aid) with
    | none => exact hinv org' site' ty'
    | some old =>
      dsimp only
      have hcnt := count_replace_of_some s.assets aid (f old) old org' site'
        ty' hf
      by_cases hsc : sameCoord old (f old) = true
      · rw [if_pos hsc]
        show counterValue
            (upsertCounter s.counters (f old).orgId (f old).siteId
              (f old).assetType
              (countAssets (replaceById s.assets aid (f old)) (f old).orgId
                (f old).siteId (f old).assetType))
            org' site' ty'
          = countAssets (replaceById s.assets aid (f old)) org' site' ty'
        by_cases hk : org' = (f old).orgId ∧ site' = (f old).siteId ∧
            ty' = (f old).assetType
        · obtain ⟨e1, e2, e3⟩ := hk
          subst e1
          subst e2
          subst e3
          rw [counterValue_upsert_eq]
        · rw [counterValue_upsert_ne _ _ _ _ _ _ _ _ hk, hinv org' site' ty']
          have hbnew : coordMatches org' site' ty' (f old) = false :=
            coordMatches_false_of_ne _ _ _ _ hk
          have hbold : coordMatches org' site' ty' old = false := by
            simp only [sameCoord, Bool.and_eq_true, beq_iff_eq] at hsc
            have : coordMatches org' site' ty' old
                = coordMatches org' site' ty' (f old) := by
              simp [coordMatches, hsc.1.1, hsc.1.2, hsc.2]
            rw [this, hbnew]
          rw [hbnew, hbold] at hcnt
          omega
      · rw [if_neg hsc]
        show counterValue
            (upsertCounter
              (upsertCounter s.counters old.orgId old.siteId old.assetType
                (countAssets (replaceById s.assets aid (f old)) old.orgId
                  old.siteId old.assetType))
              (f old).orgId (f old).siteId (f old).assetType
              (countAssets (replaceById s.assets aid (f old)) (f old).orgId
                (f old).siteId (f old).assetType))
            org' site' ty'
          = countAssets (replaceById s.assets aid (f old)) org' site' ty'
        by_cases hknew : org' = (f old).orgId ∧ site' = (f old).siteId ∧
            ty' = (f old).assetType
        · obtain ⟨e1, e2, e3⟩ := hknew
          subst e1
          subst e2
          subst e3
          rw [counterValue_upsert_eq]
        · rw [counterValue_upsert_ne _ _ _ _ _ _ _ _ hknew]
          by_cases hkold : org' = old.orgId ∧ site' = old.siteId ∧
              ty' = old.assetType
          · obtain ⟨e1, e2, e3⟩ := hkold
            subst e1
            subst e2
            subst e3
            rw [counterValue_upsert_eq]
          · rw [counterValue_upsert_ne _ _ _ _ _ _ _ _ hkold,
              hinv org' site' ty']
            have hbnew : coordMatches org' site' ty' (f old) = false :=
              coordMatches_false_of_ne _ _ _ _ hknew
            have hbold : coordMatches org' site' ty' old = false :=
              coordMatches_false_of_ne _ _ _ _ hkold
            rw [hbnew, hbold] at hcnt
            omega
  · intro aid org' site' ty'
    unfold deleteAssetRow
    cases hf : s.assets.find? (fun r => r.id == aid) with
    | none => exact hinv org' site' ty'
    | some old =>
      dsimp only
      show counterValue
          (upsertCounter s.counters old.orgId old.siteId old.assetType
            (countAssets (removeById s.assets aid) old.orgId old.siteId
              old.assetType))
          org' site' ty'
        = countAssets (removeById s.assets aid) org' site' ty'
      have hcnt := count_remove_of_some s.assets aid old org' site' ty' hf
      by_cases hk : org' = old.orgId ∧ site' = old.siteId ∧
          ty' = old.assetType
      · obtain ⟨e1, e2, e3⟩ := hk
        subst e1
        subst e2
        subst e3
        rw [counterValue_upsert_eq]
      · rw [counterValue_upsert_ne _ _ _ _ _ _ _ _ hk, hinv org' site' ty']
        have hbold : coordMatches org' site' ty' old = false :=
          coordMatches_false_of_ne _ _ _ _ hk
        rw [hbold] at hcnt
        simp only [Bool.false_eq_true, if_false, Nat.add_zero] at hcnt
        omega

/-- Closed instance of the C2 theorem: starting from empty tables
(trivially correct counters), inserting a concrete switch asset leaves
the counter at its triple equal to the live count 1, and a foreign
triple at 0. -/
theorem C2_counter_law_witness :
    counterValue
        (insertAssetRow { assets := [], counters := [] }
          { id := 1, orgId := 1, siteId := 5, assetType := "switch" }).counters
        1 5 "switch"
      = countAssets
          (insertAssetRow { assets := [], counters := [] }
            { id := 1, orgId := 1, siteId := 5, assetType := "switch" }).assets
          1 5 "switch" ∧
    counterValue
        (insertAssetRow { assets := [], counters := [] }
          { id := 1, orgId := 1, siteId := 5, assetType := "switch" }).counters
        2 5 "switch"
      = countAssets
          (insertAssetRow { assets := [], counters := [] }
            { id := 1, orgId := 1, siteId := 5, assetType := "switch" }).assets
          2 5 "switch" :=
  have hinv : counterInv { assets := [], counters := [] } :=
    fun _ _ _ => rfl
  ⟨(C2_counter_law { assets := [], counters := [] } hinv).1
      { id := 1, orgId := 1, siteId := 5, assetType := "switch" } 1 5 "switch",
   (C2_counter_law { assets := [], counters := [] } hinv).1
      { id := 1, orgId := 1, siteId := 5, assetType := "switch" } 2 5 "switch"⟩

/-- Closed instance of the amended C4 theorem on a one-admin org. -/
theorem C4_last_admin_amended_witness :
    deleteUser
        [{ id := 1, email := "a@b.c", orgId := 2,
           roles := ["org_admin"] }] 1
      = (.lastAdmin,
         [{ id := 1, email := "a@b.c", orgId := 2,
            roles := ["org_admin"] }]) ∧
    (updateUser
        [{ id := 1, email := "a@b.c", orgId := 2,
           roles := ["org_admin"] }] 1 { isActive := some false } 2).1
      = .ok :=
  ⟨C4_last_admin_amended.1 _ 1 (by decide),
   (C4_last_admin_amended.2
      [{ id := 1, email := "a@b.c", orgId := 2, roles := ["org_admin"] }]
      1 2 { id := 1, email := "a@b.c", orgId := 2, roles := ["org_admin"] }
      (by decide)).1⟩

/-- C5 counterexample: a create request with a switch sub-payload
whose subtype INSERT fails leaves the database holding the asset row
WITHOUT the subtype row — the handler returns 500 but performs no
rollback, refuting "both rows or neither". -/
theorem C5_counterexample :
    (createAsset {} swCreateReq 1 true false).1 = .subtypeSwitchFailed ∧
    (createAsset {} swCreateReq 1 true false).2.assets
      = [{ id := 1, orgId := 1, siteId := 1, assetType := "switch" }] ∧
    (createAsset {} swCreateReq 1 true false).2.switches = [] := by
  refine ⟨by decide, by decide, by decide⟩

/-- C5 (amended). `createAsset` runs its three INSERTs outside any
transaction: when the switch subtype INSERT fails the request reports
the failure but the already-committed asset row remains and no
subtype row exists; when it succeeds both rows are written. -/
theorem C5_create_no_rollback_amended (db : AssetDB)
    (req : CreateAssetRequest) (orgID : Int) (sw : CreateSwitchReq)
    (h1 : (req.siteId == 0 || req.assetType == "") = false)
    (h2 : req.mgmtIp = none) (h3 : req.switch = some sw)
    (h4 : req.vlan = none) :
    createAsset db req orgID true false
      = (.subtypeSwitchFailed,
         { db with assets := db.assets ++ [assetRowOf db req orgID none] }) ∧
    createAsset db req orgID false false
      = (.created (assetRowOf db req orgID none).id,
         { db with
           assets := db.assets ++ [assetRowOf db req orgID none]
           switches := db.switches ++
             [{ assetId := (assetRowOf db req orgID none).id,
                portsTotal := sw.portsTotal, poe := sw.poe,
                uplinkInfo := sw.uplinkInfo, firmware := sw.firmware }] }) := by
  unfold createAsset
  rw [h2, h3, h4]
  refine ⟨?_, ?_⟩ <;>
  · simp only [h1, Bool.false_eq_true, if_false]
    try rfl

/-- Closed instance of the amended C5 theorem. -/
theorem C5_create_no_rollback_amended_witness :
    createAsset {} swCreateReq 1 true false
      = (.subtypeSwitchFailed,
         { assets := [assetRowOf {} swCreateReq 1 none] }) :=
  (C5_create_no_rollback_amended {} swCreateReq 1 {}
    (by decide) rfl rfl rfl).1

/-- C9. Password non-disclosure: the JSON serialization of
`models.User` never emits a `password_hash` (or `password`) key —
`PasswordHash` carries the `json:"-"` tag — and both user shapes the
handlers place into responses (`Redacted()` copies, and the literal
user `createUser` builds) carry an empty digest. -/
theorem C9_password_never_serialized (u : User) (uid : Int)
    (email : String) (fn ln : Option String) (orgId : Int)
    (roles : List String) (cAt uAt : Int) :
    (Redacted u).passwordHash = "" ∧
    (createUserResponseUser uid email fn ln orgId roles cAt uAt).passwordHash
      = "" ∧
    ((userJSONKeys u).contains "password_hash") = false ∧
    ((userJSONKeys u).contains "password") = false := by
  refine ⟨rfl, rfl, ?_, ?_⟩ <;>
  · rcases u with ⟨_, _, _, f1, l1, _, _, _, _, _, ll⟩
    rcases f1 with _ | _ <;> rcases l1 with _ | _ <;>
      rcases ll with _ | _ <;> rfl

/-- Closed instance of the C9 theorem at a fully-populated user. -/
theorem C9_password_never_serialized_witness :
    (Redacted exampleUser).passwordHash = "" ∧
    (createUserResponseUser 2 "c@d.e" none none 1 ["viewer"] 0 0).passwordHash
      = "" ∧
    ((userJSONKeys exampleUser).contains "password_hash") = false ∧
    ((userJSONKeys exampleUser).contains "password") = false :=
  C9_password_never_serialized exampleUser 2 "c@d.e" none none 1 ["viewer"] 0 0

/-- C6. The natural-key search never reaches its fall-through-to-next
key or insert classification on a live pgx connection: on the very
first present key with no matching asset, `QueryRow(...).Scan` yields
`pgx.ErrNoRows`, the guard `err != sql.ErrNoRows` is TRUE (the two
sentinels are distinct error values), and `findExistingAsset` returns
the error — here evaluated on an empty assets table with natural key
`[serial, name]` and a row carrying serial "SW-1", where the spec
requires classification as an insert (`ok 0`). -/
theorem C6_findExistingAsset_errors_instead_of_insert :
    findExistingAsset {}
        [("asset_type", Value.vstr "switch"), ("serial", Value.vstr "SW-1")]
        ["serial", "name"] 1 5
      = .error .noRows ∧
    (Except.error PgxError.noRows : Except PgxError Int) ≠ .ok 0 := by
  refine ⟨rfl, fun hcon => Except.noConfusion hcon⟩

/-- Dry-run rows never touch the database. -/
theorem processRow_dry_pure (db : ImpDB) (rowData : List (String × String))
    (config : SheetConfig) (defaults aliasMap : List (String × String))
    (opts : ImportOptions) (sum : SheetSummary)
    (h : opts.dryRun = true) :
    (processRow db rowData config defaults aliasMap opts sum).2 = db := by
  unfold processRow
  rw [h]
  split
  · rfl
  · split
    · rfl
    · split
      · rfl
      · split
        · rfl
        · rfl

/-- Dry-run sheets never touch the database. -/
theorem processRows_dry_pure (config : SheetConfig)
    (defaults aliasMap : List (String × String)) (opts : ImportOptions)
    (h : opts.dryRun = true) :
    ∀ (rows : List (List (String × String))) (sum : SheetSummary)
      (db : ImpDB),
      (processRows config defaults aliasMap opts rows sum db).2 = db := by
  intro rows
  induction rows with
  | nil =>
    intro sum db
    rfl
  | cons r rest ih =>
    intro sum db
    unfold processRows
    have hp := processRow_dry_pure db r config defaults aliasMap opts sum h
    cases hpr : processRow db r config defaults aliasMap opts sum with
    | mk s1 d1 =>
      rw [hpr] at hp
      dsimp only
      rw [ih s1 d1]
      exact hp

/-- Dry-run imports never touch the database, sheet loop included. -/
theorem runSheets_dry_pure (mapping : MappingConfig)
    (defaults : List (String × String)) (opts : ImportOptions) (maxE : Int)
    (h : opts.dryRun = true) :
    ∀ (sheets : List (String × List (List (String × String))))
      (sum : ImportSummary) (db : ImpDB),
      (runSheets mapping defaults opts maxE sheets sum db).2.2 = db := by
  intro sheets
  induction sheets with
  | nil =>
    intro sum db
    rfl
  | cons s rest ih =>
    intro sum db
    cases s with
    | mk name rows =>
      unfold runSheets
      cases hlk : mapping.sheets.lookup name with
      | none =>
        dsimp only
        exact ih sum db
      | some cfg =>
        dsimp only
        have hp : (processSheet db name rows cfg defaults [] opts).2 = db :=
          processRows_dry_pure cfg defaults [] opts h rows
            { name := name } db
        cases hps : processSheet db name rows cfg defaults [] opts with
        | mk ss db1 =>
          rw [hps] at hp
          dsimp only
          split
          · exact hp
          · rw [ih _ _]
            exact hp

/-- C3 counterexample (counts part): a two-row Equipment sheet over a
database holding one switch (serial S1, name N0) — row 1 updates it
and renames it to N9, row 2 identifies it only by the name N9.  The
dry run reports updated=1, errors=1 while the real run reports
updated=2, errors=0: the dry-run summary is NOT the summary a real
run would produce, because classification of row 2 depends on row 1's
write. -/
theorem C3_counterexample :
    ((importExcel impDb0 c3Sheets
        { orgId := 1, siteId := 5, dryRun := true }).1.updated = 1 ∧
     (importExcel impDb0 c3Sheets
        { orgId := 1, siteId := 5, dryRun := true }).1.errors = 1) ∧
    ((importExcel impDb0 c3Sheets
        { orgId := 1, siteId := 5, dryRun := false }).1.updated = 2 ∧
     (importExcel impDb0 c3Sheets
        { orgId := 1, siteId := 5, dryRun := false }).1.errors = 0) := by
  refine ⟨⟨by decide, by decide⟩, by decide, by decide⟩

/-- C3 (amended). Dry-run purity holds unconditionally: an import
invoked with `dry_run = true` returns a database state equal to the
input state, whatever the sheets contain — but its summary counts are
computed against the unmodified pre-call state and may differ from a
real run when a row's classification depends on an earlier row's
write. -/
theorem C3_dry_run_purity_amended (db : ImpDB)
    (sheets : List (String × List (List (String × String))))
    (opts : ImportOptions) (h : opts.dryRun = true) :
    (importExcel db sheets opts).2.2 = db :=
  runSheets_dry_pure loadMappingConfig loadMappingConfig.defaultOrgFields
    opts (effMaxErrors opts) h sheets { dryRun := opts.dryRun } db

/-- Closed instance of the amended C3 theorem on the two-row sheet. -/
theorem C3_dry_run_purity_amended_witness :
    (importExcel impDb0 c3Sheets
        { orgId := 1, siteId := 5, dryRun := true }).2.2 = impDb0 :=
  C3_dry_run_purity_amended impDb0 c3Sheets
    { orgId := 1, siteId := 5, dryRun := true } rfl

/-- Each processed row bumps exactly one of the four counters. -/
theorem processRow_total (db : ImpDB) (rowData : List (String × String))
    (config : SheetConfig) (defaults aliasMap : List (String × String))
    (opts : ImportOptions) (sum : SheetSummary) :
    (processRow db rowData config defaults aliasMap opts sum).1.inserted
      + (processRow db rowData config defaults aliasMap opts sum).1.updated
      + (processRow db rowData config defaults aliasMap opts sum).1.skipped
      + (processRow db rowData config defaults aliasMap opts sum).1.errors
    = sum.inserted + sum.updated + sum.skipped + sum.errors + 1 := by
  unfold processRow
  split
  · dsimp only
    omega
  · split
    · dsimp only
      omega
    · split
      · dsimp only
        omega
      · split
        · split
          · dsimp only
            omega
          · dsimp only
            omega
        · split
          · dsimp only
            omega
          · dsimp only
            omega

/-- Every row of a sheet is classified: the four counters sum to the
row count, ON TOP of whatever was accumulated — in particular rows
AFTER the error bound is crossed are still processed, since no check
runs inside the row loop. -/
theorem processRows_total (config : SheetConfig)
    (defaults aliasMap : List (String × String)) (opts : ImportOptions) :
    ∀ (rows : List (List (String × String))) (sum : SheetSummary)
      (db : ImpDB),
      (processRows config defaults aliasMap opts rows sum db).1.inserted
        + (processRows config defaults aliasMap opts rows sum db).1.updated
        + (processRows config defaults aliasMap opts rows sum db).1.skipped
        + (processRows config defaults aliasMap opts rows sum db).1.errors
      = sum.inserted + sum.updated + sum.skipped + sum.errors
        + rows.length := by
  intro rows
  induction rows with
  | nil =>
    intro sum db
    simp [processRows]
  | cons r rest ih =>
    intro sum db
    unfold processRows
    have hr := processRow_total db r config defaults aliasMap opts sum
    cases hpr : processRow db r config defaults aliasMap opts sum with
    | mk s1 d1 =>
      rw [hpr] at hr
      dsimp only at hr ⊢
      rw [List.length_cons]
      have := ih s1 d1
      omega

/-- C7 (amended). The error bound is enforced only BETWEEN sheets:
(1) within a sheet every row is processed and classified, however many
errors have accumulated (the counters always sum to the full row
count); (2) once a mapped sheet's processing pushes the total past
`max_errors`, the import returns the accumulated partial summary with
a top-level error and the remaining sheets contribute nothing. -/
theorem C7_stop_condition_amended :
    (∀ (config : SheetConfig) (defaults aliasMap : List (String × String))
       (opts : ImportOptions) (rows : List (List (String × String)))
       (db : ImpDB),
       (processRows config defaults aliasMap opts rows { } db).1.inserted
         + (processRows config defaults aliasMap opts rows { } db).1.updated
         + (processRows config defaults aliasMap opts rows { } db).1.skipped
         + (processRows config defaults aliasMap opts rows { } db).1.errors
       = rows.length) ∧
    (∀ (mapping : MappingConfig) (defaults : List (String × String))
       (opts : ImportOptions) (maxE : Int) (name : String)
       (rows : List (List (String × String)))
       (rest : List (String × List (List (String × String))))
       (sum : ImportSummary) (db : ImpDB) (cfg : SheetConfig),
       mapping.sheets.lookup name = some cfg →
       ((accumSheet sum
           (processSheet db name rows cfg defaults [] opts).1).errors : Int)
         > maxE →
       runSheets mapping defaults opts maxE ((name, rows) :: rest) sum db
         = (accumSheet sum (processSheet db name rows cfg defaults [] opts).1,
            true,
            (processSheet db name rows cfg defaults [] opts).2)) := by
  constructor
  · intro config defaults aliasMap opts rows db
    have := processRows_total config defaults aliasMap opts rows { } db
    simpa using this
  · intro mapping defaults opts maxE name rows rest sum db cfg hlk hex
    unfold runSheets
    rw [hlk]
    dsimp only
    cases hps : processSheet db name rows cfg defaults [] opts with
    | mk ss db1 =>
      rw [hps] at hex
      dsimp only at hex ⊢
      rw [if_pos hex]

/-- C7 counterexample: with `max_errors = 1`, a single Equipment sheet
whose first two rows fail (bad `mgmt_ip`) and whose third row is a
valid update still processes the third row — the summary reports
updated = 1 next to errors = 2 and the import returns a top-level
error only after the whole sheet ran. -/
theorem C7_counterexample :
    ((importExcel impDb0 [("Equipment", c7Rows)]
        { orgId := 1, siteId := 5, maxErrors := 1 }).1.updated = 1 ∧
     (importExcel impDb0 [("Equipment", c7Rows)]
        { orgId := 1, siteId := 5, maxErrors := 1 }).1.errors = 2) ∧
    (importExcel impDb0 [("Equipment", c7Rows)]
        { orgId := 1, siteId := 5, maxErrors := 1 }).2.1 = true := by
  refine ⟨⟨by decide, by decide⟩, by decide⟩

/-- Closed instance of the amended C7 theorem: the conservation part
on the three-row sheet, and the stop part on that sheet followed by a
second sheet that is provably not processed. -/
theorem C7_stop_condition_amended_witness :
    ((processRows equipmentSheet loadMappingConfig.defaultOrgFields []
        { orgId := 1, siteId := 5 } c7Rows { } { }).1.inserted
      + (processRows equipmentSheet loadMappingConfig.defaultOrgFields []
        { orgId := 1, siteId := 5 } c7Rows { } { }).1.updated
      + (processRows equipmentSheet loadMappingConfig.defaultOrgFields []
        { orgId := 1, siteId := 5 } c7Rows { } { }).1.skipped
      + (processRows equipmentSheet loadMappingConfig.defaultOrgFields []
        { orgId := 1, siteId := 5 } c7Rows { } { }).1.errors
      = c7Rows.length) ∧
    runSheets loadMappingConfig loadMappingConfig.defaultOrgFields
        { orgId := 1, siteId := 5, maxErrors := 1 } 1
        [("Equipment", c7Rows), ("Equipment", c7Rows)] { } impDb0
      = (accumSheet { }
          (processSheet impDb0 "Equipment" c7Rows equipmentSheet
            loadMappingConfig.defaultOrgFields []
            { orgId := 1, siteId := 5, maxErrors := 1 }).1,
         true,
         (processSheet impDb0 "Equipment" c7Rows equipmentSheet
           loadMappingConfig.defaultOrgFields []
           { orgId := 1, siteId := 5, maxErrors := 1 }).2) :=
  ⟨C7_stop_condition_amended.1 equipmentSheet
    loadMappingConfig.defaultOrgFields [] { orgId := 1, siteId := 5 }
    c7Rows { },
   C7_stop_condition_amended.2 loadMappingConfig
    loadMappingConfig.defaultOrgFields
    { orgId := 1, siteId := 5, maxErrors := 1 } 1 "Equipment" c7Rows
    [("Equipment", c7Rows)] { } impDb0 equipmentSheet (by decide)
    (by decide)⟩

end Era
